import Mathlib

/-!
The struct-based logger of `my_logger2.go` (package `my_logging`), and the
error-aware functions of the package-level API of `my_logger.go`.

A shallow embedding of `Logger` and its methods.  The logger's effects on the
outside (console streams, caller-supplied buffers, files, process exit) are
made explicit as a `World` that every method takes and returns.

The Go standard library pieces the logger calls (`fmt.Sprintf`, `log.Logger`,
`io.MultiWriter`, `os.OpenFile`, `os.Exit`) are modelled after their documented
behaviour, on the fragment the logger uses.
-/

set_option autoImplicit false

namespace MyLogging

/-! ## Formatting (`fmt.Sprintf`) -/

/-- A value passed in a variadic `...any` argument list: a Go `string` or a
Go `int`. -/
inductive Arg where
  | str (s : String)
  | int (i : Int)
  deriving DecidableEq

/-- Go type name of an argument, as `fmt` prints it in its error texts. -/
def Arg.typeName : Arg → String
  | .str _ => "string"
  | .int _ => "int"

/-- Default (`%v`) rendering of an argument. -/
def Arg.text : Arg → String
  | .str s => s
  | .int i => toString i

/-- Rendering of one argument under the verb `c`: `%v` prints the default
text, `%s` a string, `%d` an integer; any other pairing prints the
bad-verb text `%!c(type=value)`. -/
def fmtVerb (c : Char) (x : Arg) : List Char :=
  if c = 'v' then x.text.data
  else match x with
    | .str s => if c = 's' then s.data
                else "%!".data ++ [c] ++ "(string=".data ++ s.data ++ [')']
    | .int i => if c = 'd' then (toString i).data
                else "%!".data ++ [c] ++ "(int=".data ++ (toString i).data ++ [')']

/-- The `type=value` list of the arguments no verb consumed. -/
def fmtExtraList : List Arg → List Char
  | [] => []
  | [x] => x.typeName.data ++ ['='] ++ x.text.data
  | x :: y :: rest =>
    x.typeName.data ++ ['='] ++ x.text.data ++ ", ".data ++ fmtExtraList (y :: rest)

/-- Trailer `%!(EXTRA type=value, ...)` printed when arguments are left
over; nothing when all were consumed. -/
def fmtExtra : List Arg → List Char
  | [] => []
  | x :: rest => "%!(EXTRA ".data ++ fmtExtraList (x :: rest) ++ [')']

/-- The scanning loop of `fmt.Sprintf` over the characters of the format.
Plain characters are copied; `%%` prints a percent sign; a `%` ending the
format prints `%!(NOVERB)`; a verb with no argument left prints
`%!c(MISSING)`; otherwise the verb consumes the next argument.  Flags, width,
precision and argument indexes are outside the modelled fragment. -/
def doPrintf : List Char → List Arg → List Char
  | [], args => fmtExtra args
  | c :: rest, args =>
    if c = '%' then
      match rest with
      | [] => "%!(NOVERB)".data ++ fmtExtra args
      | v :: rest2 =>
        if v = '%' then '%' :: doPrintf rest2 args
        else match args with
          | [] => "%!".data ++ [v] ++ "(MISSING)".data ++ doPrintf rest2 []
          | x :: xs => fmtVerb v x ++ doPrintf rest2 xs
    else c :: doPrintf rest args

/-- Model of `fmt.Sprintf(format, a...)`. -/
def Sprintf (format : String) (a : List Arg) : String :=
  String.mk (doPrintf format.data a)

/-! ## Time stamps and `log.Logger` -/

/-- Wall-clock reading taken by a `log.Logger` when it writes. -/
structure Time where
  year : Nat
  month : Nat
  day : Nat
  hour : Nat
  minute : Nat
  second : Nat
  deriving DecidableEq

/-- Decimal digit character of `d % 10`. -/
def digitChar (d : Nat) : Char :=
  Char.ofNat (48 + d % 10)

/-- The digit loop of `log.itoa`, `for i >= 10 || wid > 1`, run for at most
`fuel` rounds: each round emits the last digit of `i` and goes on with `i / 10`
and `wid - 1`. -/
def itoaLoop : Nat → Nat → Nat → List Char
  | 0, i, _ => [digitChar i]
  | fuel + 1, i, wid =>
    if 10 ≤ i ∨ 1 < wid then itoaLoop fuel (i / 10) (wid - 1) ++ [digitChar i]
    else [digitChar i]

/-- Fixed-width decimal of `log.itoa`: the decimal digits of `i`, zero-padded
on the left to at least `wid` characters.  The loop never needs more than
`i + wid` rounds (`itoa_unfold`). -/
def itoa (i : Nat) (wid : Nat) : List Char :=
  itoaLoop (i + wid) i wid

/-- Flag bit `log.Ldate`. -/
def Ldate : Nat := 1

/-- Flag bit `log.Ltime`. -/
def Ltime : Nat := 2

/-- Date field `2006/01/02` written under `Ldate`. -/
def dateField (t : Time) : String :=
  String.mk (itoa t.year 4 ++ ['/'] ++ itoa t.month 2 ++ ['/'] ++ itoa t.day 2)

/-- Time field `15:04:05` written under `Ltime`. -/
def timeField (t : Time) : String :=
  String.mk (itoa t.hour 2 ++ [':'] ++ itoa t.minute 2 ++ [':'] ++ itoa t.second 2)

/-- A destination of bytes (`io.Writer`): a console stream, a caller-supplied
buffer (`testBuffer` of the tests, told apart by a number), a file opened for
appending, the nil file handle left by a failed open, or the pair made by
`io.MultiWriter(a, b)`. -/
inductive Writer where
  | stdout
  | stderr
  | buffer (id : Nat)
  | file (path : String)
  | nilFile
  | multi (a b : Writer)
  deriving DecidableEq

/-- What a path of the file system holds: nothing yet, a regular file with
its content, or something that makes opening fail with the given cause. -/
inductive FileEntry where
  | absent
  | regular (content : String)
  | blocked (cause : String)
  deriving DecidableEq

/-- Everything outside the logger that its methods can read or change.
`writes` is the journal of `Write` calls made on sink writers, oldest first;
`exited` holds the exit status once `os.Exit` has been called. -/
structure World where
  stdout : String
  stderr : String
  buffers : Nat → String
  fs : String → FileEntry
  exited : Option Nat
  writes : List (Writer × String)

/-- One `Write(p)` call on a writer.  The flag is true when the call
reports no error and a byte count equal to `len(p)`, which is what
`io.MultiWriter` requires before it passes `p` on to its next writer.  A
test buffer stores the bytes and reports a count of 0; a nil file fails. -/
def World.write : Writer → String → World → World × Bool
  | .stdout, p, w => ({ w with stdout := w.stdout ++ p }, true)
  | .stderr, p, w => ({ w with stderr := w.stderr ++ p }, true)
  | .buffer i, p, w =>
    ({ w with buffers := Function.update w.buffers i (w.buffers i ++ p) }, decide (p = ""))
  | .file path, p, w =>
    match w.fs path with
    | .regular c => ({ w with fs := Function.update w.fs path (.regular (c ++ p)) }, true)
    | _ => (w, false)
  | .nilFile, _, w => (w, false)
  | .multi a b, p, w =>
    let r := World.write a p w
    if r.2 then World.write b p r.1 else (r.1, false)

/-- Call `os.Exit(code)`. -/
def World.Exit (code : Nat) (w : World) : World :=
  { w with exited := some code }

/-- A non-nil `*log.Logger` as built by `log.New(out, prefix, flag)`; `tag`
is its prefix. -/
structure StdLogger where
  out : Writer
  tag : String
  flag : Nat
  deriving DecidableEq

/-- Header of a log line (`formatHeader`): the logger's prefix, then the date
and time fields its flags select, each followed by one space.  Only the bits
`Ldate` and `Ltime` are modelled; `createLogs` sets no other. -/
def StdLogger.formatHeader (s : StdLogger) (now : Time) : String :=
  s.tag
    ++ (if s.flag &&& Ldate ≠ 0 then dateField now ++ " " else "")
    ++ (if s.flag &&& Ltime ≠ 0 then timeField now ++ " " else "")

/-- The bytes of one `Println(message)`: header, then `fmt.Sprintln(message)`,
which is the message followed by a newline. -/
def StdLogger.line (s : StdLogger) (now : Time) (message : String) : String :=
  s.formatHeader now ++ message ++ "\n"

/-- Model of `(*log.Logger).Println(message)`: a single `Write` call on the
logger's writer, whose result is ignored. -/
def StdLogger.Println (s : StdLogger) (now : Time) (message : String) (w : World) : World :=
  let w1 := { w with writes := w.writes ++ [(s.out, s.line now message)] }
  (World.write s.out (s.line now message) w1).1

/-- Model of `os.OpenFile(path, O_CREATE|O_WRONLY|O_APPEND, 0666)`: an existing
regular file is opened as it is, an absent one is created empty, and a blocked
path yields the error whose `Error()` text is returned. -/
def OpenFile (path : String) (w : World) : Except String Writer × World :=
  match w.fs path with
  | .regular _ => (.ok (.file path), w)
  | .absent => (.ok (.file path), { w with fs := Function.update w.fs path (.regular "") })
  | .blocked cause => (.error ("open " ++ path ++ ": " ++ cause), w)

/-! ## The logger (`my_logger2.go`) -/

/-- The `Logger` struct: four sinks, the threshold `logLevel`, the path of the
log file, the message prefix (field `prefix` in the source) and the testing
flag.  The sinks of a value of this type are non-nil, as they are once `init`
or `initTest` has run. -/
structure Logger where
  debug : StdLogger
  info : StdLogger
  warning : StdLogger
  critical : StdLogger
  logLevel : String
  logFile : String
  logPrefix : String
  testing : Bool
  deriving DecidableEq

/-- Stand-in for a sink field that `createLogs` has not set yet.  It is never
written to: `init` and `initTest` replace all four sinks before any use. -/
def StdLogger.zero : StdLogger :=
  { out := .nilFile, tag := "", flag := 0 }

/-- Go zero value of `Logger` (`var log Logger`): empty strings and a false
testing flag; the four sinks are stand-ins until `createLogs` sets them. -/
def Logger.zero : Logger :=
  { debug := .zero, info := .zero, warning := .zero, critical := .zero,
    logLevel := "", logFile := "", logPrefix := "", testing := false }

namespace Logger

/-- Method `createLogs`: rebuilds the four sinks over the given writers, with
their level tags and the flags `Ldate|Ltime`. -/
def createLogs (l : Logger) (debugOutput infoOutput warningOutput errorOutput : Writer) :
    Logger :=
  { l with
    debug := { out := debugOutput, tag := "DEBUG: ", flag := Ldate ||| Ltime }
    info := { out := infoOutput, tag := "INFO: ", flag := Ldate ||| Ltime }
    warning := { out := warningOutput, tag := "WARNING: ", flag := Ldate ||| Ltime }
    critical := { out := errorOutput, tag := "CRITICAL: ", flag := Ldate ||| Ltime } }

/-- Method `init`. -/
def init (l : Logger) : Logger :=
  createLogs { l with logLevel := "DEBUG" } .stdout .stdout .stdout .stderr

/-- Method `initTest`, used for testing. -/
def initTest (l : Logger) (debugWriter infoWriter warningWriter criticalWriter : Writer) :
    Logger :=
  createLogs { l with logLevel := "DEBUG", testing := true }
    debugWriter infoWriter warningWriter criticalWriter

/-- Method `sendLog`, the one place every logging method goes through. -/
def sendLog (l : Logger) (now : Time) (logLevel : String) (logMessage : String)
    (arguments : List Arg) (w : World) : Logger × World :=
  let message := Sprintf logMessage arguments
  let message := l.logPrefix ++ message
  if logLevel = "DEBUG" then
    if l.logLevel = "DEBUG" then (l, l.debug.Println now message w) else (l, w)
  else if logLevel = "INFO" then
    if l.logLevel = "DEBUG" ∨ l.logLevel = "INFO" then
      (l, l.info.Println now message w)
    else (l, w)
  else if logLevel = "WARNING" then
    if l.logLevel = "DEBUG" ∨ l.logLevel = "INFO" ∨ l.logLevel = "WARNING" then
      (l, l.warning.Println now message w)
    else (l, w)
  else if logLevel = "CRITICAL" then
    let w1 := l.critical.Println now message w
    if !l.testing then (l, w1.Exit 1) else (l, w1)
  else (l, w)

/-- Method `checkError`: logs only when an error is present.  An `error` is
modelled by the text of its `Error()`; `none` is the nil error. -/
def checkError (l : Logger) (now : Time) (err : Option String) (logLevel : String)
    (logMessage : String) (arguments : List Arg) (w : World) : Logger × World :=
  match err with
  | some errorText =>
    let developerMessage := Sprintf logMessage arguments
    let errorMessage := errorText
    let message := Sprintf "Error check failed. Dev message: '%s' Error message: '%s'"
      [.str developerMessage, .str errorMessage]
    sendLog l now logLevel message [] w
  | none => (l, w)

/-- Method `Debugf`. -/
def Debugf (l : Logger) (now : Time) (logMessage : String) (arguments : List Arg)
    (w : World) : Logger × World :=
  sendLog l now "DEBUG" logMessage arguments w

/-- Method `DebugfError`. -/
def DebugfError (l : Logger) (now : Time) (err : Option String) (logMessage : String)
    (arguments : List Arg) (w : World) : Logger × World :=
  checkError l now err "DEBUG" logMessage arguments w

/-- Method `Infof`. -/
def Infof (l : Logger) (now : Time) (logMessage : String) (arguments : List Arg)
    (w : World) : Logger × World :=
  sendLog l now "INFO" logMessage arguments w

/-- Method `InfofError`. -/
def InfofError (l : Logger) (now : Time) (err : Option String) (logMessage : String)
    (arguments : List Arg) (w : World) : Logger × World :=
  checkError l now err "INFO" logMessage arguments w

/-- Method `Warningf`. -/
def Warningf (l : Logger) (now : Time) (logMessage : String) (arguments : List Arg)
    (w : World) : Logger × World :=
  sendLog l now "WARNING" logMessage arguments w

/-- Method `WarningfError`. -/
def WarningfError (l : Logger) (now : Time) (err : Option String) (logMessage : String)
    (arguments : List Arg) (w : World) : Logger × World :=
  checkError l now err "WARNING" logMessage arguments w

/-- Method `Criticalf`. -/
def Criticalf (l : Logger) (now : Time) (logMessage : String) (arguments : List Arg)
    (w : World) : Logger × World :=
  sendLog l now "CRITICAL" logMessage arguments w

/-- Method `CriticalfError`. -/
def CriticalfError (l : Logger) (now : Time) (err : Option String) (logMessage : String)
    (arguments : List Arg) (w : World) : Logger × World :=
  checkError l now err "CRITICAL" logMessage arguments w

/-- Method `SetLogFile`.  When the open fails the method logs the error at
CRITICAL level; if that call returns (testing mode) it goes on with the nil
file handle. -/
def SetLogFile (l : Logger) (now : Time) (logFilePath : String) (w : World) :
    Logger × World :=
  let l1 := { l with logFile := logFilePath }
  match OpenFile logFilePath w with
  | (.ok file, w1) =>
    let multiWriter := Writer.multi file .stdout
    let multiWriterError := Writer.multi file .stderr
    (createLogs l1 multiWriter multiWriter multiWriter multiWriterError, w1)
  | (.error err, w1) =>
    let r := Criticalf l1 now err [] w1
    if r.2.exited.isSome then r
    else
      let multiWriter := Writer.multi .nilFile .stdout
      let multiWriterError := Writer.multi .nilFile .stderr
      (createLogs r.1 multiWriter multiWriter multiWriter multiWriterError, r.2)

/-- Method `SetLogLevel`. -/
def SetLogLevel (l : Logger) (now : Time) (newLogLevel : String) (w : World) :
    Logger × World :=
  if newLogLevel = "DEBUG" ∨ newLogLevel = "INFO" ∨ newLogLevel = "WARNING"
      ∨ newLogLevel = "CRITICAL" then
    ({ l with logLevel := newLogLevel }, w)
  else
    Criticalf l now "%s is not a valid log level\n" [.str newLogLevel] w

/-- Method `SetPrefixf`. -/
def SetPrefixf (l : Logger) (newTemplate : String) (arguments : List Arg) (w : World) :
    Logger × World :=
  let newPrefix := Sprintf newTemplate arguments
  let newPrefix := newPrefix ++ " "
  ({ l with logPrefix := newPrefix }, w)

end Logger

/-- Function `CreateLogger`. -/
def CreateLogger : Logger :=
  Logger.zero.init

/-! ## Test helpers (`my_logger2_test.go`) -/

/-- The pieces of a character list between occurrences of `sep`
(`strings.Split` with a one-character separator). -/
def splitChars (sep : Char) : List Char → List (List Char)
  | [] => [[]]
  | c :: cs =>
    if c = sep then [] :: splitChars sep cs
    else match splitChars sep cs with
      | [] => [[c]]
      | x :: xs => (c :: x) :: xs

/-- The pieces put together again with `sep` between them (`strings.Join`). -/
def joinChars (sep : Char) : List (List Char) → List Char
  | [] => []
  | [x] => x
  | x :: y :: rest => x ++ sep :: joinChars sep (y :: rest)

/-- Test helper `removeDateAndTime`: splits at spaces, drops the second and
third piece and joins the rest.  `none` stands for the slice-bounds panic of
`tempMessage[3:]` on fewer than three pieces. -/
def removeDateAndTime (logMessage : String) : Option String :=
  let tempMessage := splitChars ' ' logMessage.data
  if 3 ≤ tempMessage.length then
    let tempMessage := tempMessage.take 1 ++ tempMessage.drop 3
    some (String.mk (joinChars ' ' tempMessage))
  else none

/-! ## Vocabulary of the specification -/

/-- The four severity levels. -/
inductive Level where
  | DEBUG
  | INFO
  | WARNING
  | CRITICAL
  deriving DecidableEq

/-- The string that names a level in the code. -/
def Level.name : Level → String
  | .DEBUG => "DEBUG"
  | .INFO => "INFO"
  | .WARNING => "WARNING"
  | .CRITICAL => "CRITICAL"

/-- Position of a level in the order DEBUG < INFO < WARNING < CRITICAL. -/
def Level.rank : Level → Nat
  | .DEBUG => 0
  | .INFO => 1
  | .WARNING => 2
  | .CRITICAL => 3

/-- The sink of a level. -/
def Logger.sink (l : Logger) : Level → StdLogger
  | .DEBUG => l.debug
  | .INFO => l.info
  | .WARNING => l.warning
  | .CRITICAL => l.critical

/-- The logging method of a level: `Debugf`, `Infof`, `Warningf`, `Criticalf`. -/
def Logger.logf (l : Logger) (L : Level) (now : Time) (logMessage : String)
    (arguments : List Arg) (w : World) : Logger × World :=
  match L with
  | .DEBUG => l.Debugf now logMessage arguments w
  | .INFO => l.Infof now logMessage arguments w
  | .WARNING => l.Warningf now logMessage arguments w
  | .CRITICAL => l.Criticalf now logMessage arguments w

/-- The error-aware method of a level: `DebugfError`, `InfofError`,
`WarningfError`, `CriticalfError`. -/
def Logger.logfError (l : Logger) (L : Level) (now : Time) (err : Option String)
    (logMessage : String) (arguments : List Arg) (w : World) : Logger × World :=
  match L with
  | .DEBUG => l.DebugfError now err logMessage arguments w
  | .INFO => l.InfofError now err logMessage arguments w
  | .WARNING => l.WarningfError now err logMessage arguments w
  | .CRITICAL => l.CriticalfError now err logMessage arguments w

/-- A world in which nothing has been written yet, no file exists and the
process is running. -/
def World.empty : World :=
  { stdout := "", stderr := "", buffers := fun _ => "", fs := fun _ => .absent,
    exited := none, writes := [] }

/-- A sample clock reading. -/
def sampleTime : Time :=
  { year := 2024, month := 3, day := 9, hour := 7, minute := 5, second := 42 }

/-- A world like `World.empty` in which opening `path` fails with `cause`. -/
def World.blockedAt (path cause : String) : World :=
  { World.empty with fs := fun p => if p = path then .blocked cause else .absent }

/-! ## Sequences of calls -/

/-- One call on a logger: a configuration method, a logging method or an
error-aware logging method. -/
inductive Op where
  | SetLogLevel (newLogLevel : String)
  | SetPrefixf (newTemplate : String) (arguments : List Arg)
  | SetLogFile (logFilePath : String)
  | logf (L : Level) (logMessage : String) (arguments : List Arg)
  | logfError (L : Level) (err : Option String) (logMessage : String) (arguments : List Arg)

/-- The effect of one call made at the time `now`. -/
def Op.apply (op : Op) (now : Time) (s : Logger × World) : Logger × World :=
  match op with
  | .SetLogLevel newLogLevel => s.1.SetLogLevel now newLogLevel s.2
  | .SetPrefixf newTemplate arguments => s.1.SetPrefixf newTemplate arguments s.2
  | .SetLogFile logFilePath => s.1.SetLogFile now logFilePath s.2
  | .logf L logMessage arguments => s.1.logf L now logMessage arguments s.2
  | .logfError L err logMessage arguments => s.1.logfError L now err logMessage arguments s.2

/-- A program: calls made one after the other, each at its own time.  Once
the process has exited no further call is made. -/
def run : List (Time × Op) → Logger × World → Logger × World
  | [], s => s
  | (now, op) :: rest, s =>
    if s.2.exited.isSome then s else run rest (op.apply now s)

/-- The level names `SetLogLevel` accepts. -/
def validLevel (s : String) : Prop :=
  s = "DEBUG" ∨ s = "INFO" ∨ s = "WARNING" ∨ s = "CRITICAL"

/-- One call of a logging method: when it is made, at which level, and with
which template and arguments. -/
structure Call where
  now : Time
  level : Level
  logMessage : String
  arguments : List Arg

/-- The call as a step of a program. -/
def Call.op (c : Call) : Time × Op :=
  (c.now, .logf c.level c.logMessage c.arguments)

/-- Whether a call passes the filter of the threshold `T`. -/
def Call.passes (T : Level) (c : Call) : Bool :=
  decide (T.rank ≤ c.level.rank)

/-- The bytes the call writes to the sink of its level when it passes the
filter. -/
def Call.line (l : Logger) (c : Call) : String :=
  (l.sink c.level).line c.now (l.logPrefix ++ Sprintf c.logMessage c.arguments)

/-- Strings put one after the other. -/
def concatStrings : List String → String
  | [] => ""
  | x :: xs => x ++ concatStrings xs

/-- The flow of the test `checkEachLogLevelFileOutput`: attach the log file,
set the threshold, then make the logging calls. -/
def fileOutputRun (l : Logger) (now0 now1 : Time) (logFile : String) (T : Level)
    (calls : List Call) (w : World) : Logger × World :=
  let s1 := l.SetLogFile now0 logFile w
  let s2 := s1.1.SetLogLevel now1 T.name s1.2
  run (calls.map Call.op) s2

/-- How the test `checkEachLogLevelFileOutput` reads the file back: the data
split at newlines, empty pieces dropped, each remaining line passed through
`removeDateAndTime`. -/
def formattedLogLines (fileData : String) : List (Option String) :=
  (((splitChars '\n' fileData.data).filter (fun i => decide (i ≠ []))).map String.mk).map
    removeDateAndTime

/-! ## The package-level API (`my_logger.go`) -/

/-- Flag bit `log.Lshortfile`. -/
def Lshortfile : Nat := 16

/-- Header of a log line for a logger that may carry `Lshortfile`: the header
of `formatHeader`, then the file name and line number of the statement that
called `Println` (`itoa` without padding), a colon and a space. -/
def StdLogger.formatHeaderAt (s : StdLogger) (now : Time) (file : String) (line : Nat) :
    String :=
  s.formatHeader now
    ++ (if s.flag &&& Lshortfile ≠ 0 then file ++ ":" ++ String.mk (itoa line 0) ++ ": "
        else "")

/-- The bytes of one `Println(message)` called at `file:line`. -/
def StdLogger.lineAt (s : StdLogger) (now : Time) (file : String) (line : Nat)
    (message : String) : String :=
  s.formatHeaderAt now file line ++ message ++ "\n"

/-- Model of `(*log.Logger).Println(message)` called at `file:line`: a single
`Write` call on the logger's writer, whose result is ignored. -/
def StdLogger.PrintlnAt (s : StdLogger) (now : Time) (file : String) (line : Nat)
    (message : String) (w : World) : World :=
  let w1 := { w with writes := w.writes ++ [(s.out, s.lineAt now file line message)] }
  (World.write s.out (s.lineAt now file line message) w1).1

/-- The package-level variables of `my_logger.go`: four sinks and the
threshold. -/
structure Pkg where
  debug : StdLogger
  info : StdLogger
  warning : StdLogger
  critical : StdLogger
  logLevel : String
  deriving DecidableEq

namespace Pkg

/-- Function `createLogs` of `my_logger.go`: the sinks carry the flags
`Ldate|Ltime|Lshortfile`. -/
def createLogs (p : Pkg) (debugOutput infoOutput warningOutput errorOutput : Writer) : Pkg :=
  { p with
    debug := { out := debugOutput, tag := "DEBUG: ", flag := Ldate ||| Ltime ||| Lshortfile }
    info := { out := infoOutput, tag := "INFO: ", flag := Ldate ||| Ltime ||| Lshortfile }
    warning :=
      { out := warningOutput, tag := "WARNING: ", flag := Ldate ||| Ltime ||| Lshortfile }
    critical :=
      { out := errorOutput, tag := "CRITICAL: ", flag := Ldate ||| Ltime ||| Lshortfile } }

/-- Function `init` of `my_logger.go`, run when the package is loaded. -/
def init : Pkg :=
  createLogs
    { debug := .zero, info := .zero, warning := .zero, critical := .zero, logLevel := "DEBUG" }
    .stdout .stdout .stdout .stderr

/-- Function `Debugf` of `my_logger.go`; its `Println` is on line 81. -/
def Debugf (p : Pkg) (now : Time) (logMessage : String) (arguments : List Arg) (w : World) :
    World :=
  if p.logLevel = "DEBUG" then
    let message := Sprintf logMessage arguments
    p.debug.PrintlnAt now "my_logger.go" 81 message w
  else w

/-- Function `DebugfError` of `my_logger.go`; `now` and `now2` are the times of
its two `Debugf` calls. -/
def DebugfError (p : Pkg) (now now2 : Time) (err : Option String) (logMessage : String)
    (arguments : List Arg) (w : World) : World :=
  if p.logLevel = "DEBUG" then
    match err with
    | some errorText =>
      let w1 := Debugf p now logMessage arguments w
      Debugf p now2 errorText [] w1
    | none => w
  else w

/-- Function `Infof` of `my_logger.go`; its `Println` is on line 103. -/
def Infof (p : Pkg) (now : Time) (logMessage : String) (arguments : List Arg) (w : World) :
    World :=
  if p.logLevel = "DEBUG" ∨ p.logLevel = "INFO" then
    let message := Sprintf logMessage arguments
    p.info.PrintlnAt now "my_logger.go" 103 message w
  else w

/-- Function `InfofError` of `my_logger.go`. -/
def InfofError (p : Pkg) (now now2 : Time) (err : Option String) (logMessage : String)
    (arguments : List Arg) (w : World) : World :=
  if p.logLevel = "DEBUG" ∨ p.logLevel = "INFO" then
    match err with
    | some errorText =>
      let w1 := Infof p now logMessage arguments w
      Infof p now2 errorText [] w1
    | none => w
  else w

/-- Function `Warningf` of `my_logger.go`; its `Println` is on line 125. -/
def Warningf (p : Pkg) (now : Time) (logMessage : String) (arguments : List Arg)
    (w : World) : World :=
  if p.logLevel = "DEBUG" ∨ p.logLevel = "INFO" ∨ p.logLevel = "WARNING" then
    let message := Sprintf logMessage arguments
    p.warning.PrintlnAt now "my_logger.go" 125 message w
  else w

/-- Function `WarningfError` of `my_logger.go`. -/
def WarningfError (p : Pkg) (now now2 : Time) (err : Option String) (logMessage : String)
    (arguments : List Arg) (w : World) : World :=
  if p.logLevel = "DEBUG" ∨ p.logLevel = "INFO" ∨ p.logLevel = "WARNING" then
    match err with
    | some errorText =>
      let w1 := Warningf p now logMessage arguments w
      Warningf p now2 errorText [] w1
    | none => w
  else w

end Pkg

/-! ## Basic facts about writing -/

theorem World.write_writes (wr : Writer) (p : String) (w : World) :
    (World.write wr p w).1.writes = w.writes := by
  induction wr generalizing w with
  | stdout => rfl
  | stderr => rfl
  | buffer i => rfl
  | file path =>
    simp only [World.write]
    split <;> rfl
  | nilFile => rfl
  | multi a b iha ihb =>
    simp only [World.write]
    split
    · rw [ihb, iha]
    · exact iha w

theorem World.write_exited (wr : Writer) (p : String) (w : World) :
    (World.write wr p w).1.exited = w.exited := by
  induction wr generalizing w with
  | stdout => rfl
  | stderr => rfl
  | buffer i => rfl
  | file path =>
    simp only [World.write]
    split <;> rfl
  | nilFile => rfl
  | multi a b iha ihb =>
    simp only [World.write]
    split
    · rw [ihb, iha]
    · exact iha w

theorem StdLogger.Println_writes (s : StdLogger) (now : Time) (message : String) (w : World) :
    (s.Println now message w).writes = w.writes ++ [(s.out, s.line now message)] := by
  simp [StdLogger.Println, World.write_writes]

theorem StdLogger.Println_exited (s : StdLogger) (now : Time) (message : String) (w : World) :
    (s.Println now message w).exited = w.exited := by
  simp [StdLogger.Println, World.write_exited]

theorem World.Exit_writes (code : Nat) (w : World) : (w.Exit code).writes = w.writes := rfl

/-! ## Level filtering -/

/-- C1: for a logger whose threshold is the level T, the logging method of
level L makes a write call on the sink of L, carrying the line of the
formatted message, if and only if T ≤ L in the order DEBUG < INFO < WARNING <
CRITICAL (so CRITICAL is written under every threshold).  When it is written
the world is the one `Println` on that sink leaves, followed at most by the
exit; when L is below T the logger and the whole world, every sink included,
are left as they were. -/
theorem logf_writes_iff_threshold_le (l : Logger) (T L : Level) (now : Time)
    (logMessage : String) (arguments : List Arg) (w : World)
    (hT : l.logLevel = T.name) :
    ((l.logf L now logMessage arguments w).2.writes
        = w.writes ++ [((l.sink L).out,
            (l.sink L).line now (l.logPrefix ++ Sprintf logMessage arguments))]
      ↔ T.rank ≤ L.rank)
    ∧ (L = Level.CRITICAL → T.rank ≤ L.rank)
    ∧ (T.rank ≤ L.rank →
        (l.logf L now logMessage arguments w).1 = l
        ∧ ((l.logf L now logMessage arguments w).2
            = (l.sink L).Println now (l.logPrefix ++ Sprintf logMessage arguments) w
          ∨ (l.logf L now logMessage arguments w).2
            = ((l.sink L).Println now (l.logPrefix ++ Sprintf logMessage arguments) w).Exit 1))
    ∧ (¬ T.rank ≤ L.rank → l.logf L now logMessage arguments w = (l, w)) := by
  cases T <;> cases L <;>
    simp [Logger.logf, Logger.Debugf, Logger.Infof, Logger.Warningf, Logger.Criticalf,
      Logger.sendLog, Logger.sink, hT, Level.name, Level.rank,
      StdLogger.Println_writes] <;>
    split <;> simp [StdLogger.Println_writes, World.Exit_writes]

/-- Witness for C1: a testing logger at its initial threshold DEBUG, asked to
log at INFO. -/
theorem logf_writes_iff_threshold_le_witness :
    ((Logger.zero.initTest (.buffer 0) (.buffer 1) (.buffer 2) (.buffer 3)).logLevel
        = Level.DEBUG.name) ∧
    (((Logger.zero.initTest (.buffer 0) (.buffer 1) (.buffer 2) (.buffer 3)).logf
          Level.INFO sampleTime "cache %s" [.str "miss"] World.empty).2.writes
        = World.empty.writes ++ [(Writer.buffer 1, "INFO: 2024/03/09 07:05:42 cache miss\n")]
      ↔ Level.DEBUG.rank ≤ Level.INFO.rank) :=
  ⟨by decide,
   (logf_writes_iff_threshold_le
      (Logger.zero.initTest (.buffer 0) (.buffer 1) (.buffer 2) (.buffer 3))
      Level.DEBUG Level.INFO sampleTime "cache %s" [.str "miss"] World.empty
      (by decide)).1⟩

/-! ## Error-aware logging with a nil error -/

/-- C2: with a nil error, the error-aware method of every level, and
`checkError` under every level string, returns the logger and the world exactly
as they were, for every logger state (so every threshold), template and
arguments: no sink and no journal entry changes, and the process is not
terminated. -/
theorem checkError_nil_is_noop (l : Logger) (L : Level) (logLevel : String) (now : Time)
    (logMessage : String) (arguments : List Arg) (w : World) :
    l.logfError L now none logMessage arguments w = (l, w)
    ∧ l.checkError now none logLevel logMessage arguments w = (l, w)
    ∧ (l.logfError L now none logMessage arguments w).2.writes = w.writes
    ∧ (l.logfError L now none logMessage arguments w).2.exited = w.exited := by
  cases L <;>
    simp [Logger.logfError, Logger.DebugfError, Logger.InfofError, Logger.WarningfError,
      Logger.CriticalfError, Logger.checkError]

/-! ## CRITICAL and process termination -/

/-- C5: in testing mode `Criticalf` makes its one write call on the critical
sink, under every threshold, and returns normally: the exit status of the world
is what it was, and the logger (threshold, prefix, file path, sinks) is
unchanged. -/
theorem Criticalf_testing_returns (l : Logger) (now : Time) (logMessage : String)
    (arguments : List Arg) (w : World) (ht : l.testing = true) :
    l.Criticalf now logMessage arguments w
      = (l, l.critical.Println now (l.logPrefix ++ Sprintf logMessage arguments) w)
    ∧ (l.Criticalf now logMessage arguments w).2.writes
      = w.writes ++ [(l.critical.out,
          l.critical.line now (l.logPrefix ++ Sprintf logMessage arguments))]
    ∧ (l.Criticalf now logMessage arguments w).2.exited = w.exited
    ∧ (l.Criticalf now logMessage arguments w).1 = l := by
  simp [Logger.Criticalf, Logger.sendLog, ht, StdLogger.Println_writes,
    StdLogger.Println_exited]

/-- Witness for C5: the scenario of the specification, a testing logger
logging `fatal: oom` at CRITICAL level; the critical buffer holds the line and
the process is still running. -/
theorem Criticalf_testing_returns_witness :
    (Logger.zero.initTest (.buffer 0) (.buffer 1) (.buffer 2) (.buffer 3)).testing = true
    ∧ ((Logger.zero.initTest (.buffer 0) (.buffer 1) (.buffer 2) (.buffer 3)).Criticalf
        sampleTime "fatal: %s" [.str "oom"] World.empty).2.exited = World.empty.exited
    ∧ ((Logger.zero.initTest (.buffer 0) (.buffer 1) (.buffer 2) (.buffer 3)).Criticalf
        sampleTime "fatal: %s" [.str "oom"] World.empty).2.buffers 3
      = "CRITICAL: 2024/03/09 07:05:42 fatal: oom\n" :=
  ⟨by decide,
   (Criticalf_testing_returns
      (Logger.zero.initTest (.buffer 0) (.buffer 1) (.buffer 2) (.buffer 3))
      sampleTime "fatal: %s" [.str "oom"] World.empty (by decide)).2.2.1,
   by decide⟩

/-- C6: outside testing mode a CRITICAL emit, under every threshold, first
makes its write call on the critical sink and then exits with status 1; a
`sendLog` at any level string other than CRITICAL, and so `Debugf`, `Infof` and
`Warningf`, leaves the exit status of the world as it was. -/
theorem Criticalf_exits_after_write (l : Logger) (now : Time) (logMessage : String)
    (arguments : List Arg) (w : World) (ht : l.testing = false) :
    l.Criticalf now logMessage arguments w
      = (l, (l.critical.Println now (l.logPrefix ++ Sprintf logMessage arguments) w).Exit 1)
    ∧ (l.Criticalf now logMessage arguments w).2.writes
      = w.writes ++ [(l.critical.out,
          l.critical.line now (l.logPrefix ++ Sprintf logMessage arguments))]
    ∧ (l.Criticalf now logMessage arguments w).2.exited = some 1
    ∧ (∀ logLevel : String, logLevel ≠ "CRITICAL" →
        (l.sendLog now logLevel logMessage arguments w).2.exited = w.exited)
    ∧ (∀ L : Level, L ≠ Level.CRITICAL →
        (l.logf L now logMessage arguments w).2.exited = w.exited) := by
  have h4 : ∀ logLevel : String, logLevel ≠ "CRITICAL" →
      (l.sendLog now logLevel logMessage arguments w).2.exited = w.exited := by
    intro logLevel hne
    unfold Logger.sendLog
    simp only [hne, if_false]
    repeat' split
    all_goals simp [StdLogger.Println_exited]
  refine ⟨?_, ?_, ?_, h4, ?_⟩
  · simp [Logger.Criticalf, Logger.sendLog, ht]
  · simp [Logger.Criticalf, Logger.sendLog, ht, World.Exit_writes, StdLogger.Println_writes]
  · simp [Logger.Criticalf, Logger.sendLog, ht, World.Exit]
  · intro L hL
    cases L
    · exact h4 "DEBUG" (by decide)
    · exact h4 "INFO" (by decide)
    · exact h4 "WARNING" (by decide)
    · exact absurd rfl hL

/-- Witness for C6: the logger of `CreateLogger` logging at CRITICAL level. -/
theorem Criticalf_exits_after_write_witness :
    CreateLogger.testing = false
    ∧ (CreateLogger.Criticalf sampleTime "fatal: %s" [.str "oom"] World.empty).2.exited
      = some 1
    ∧ (CreateLogger.Criticalf sampleTime "fatal: %s" [.str "oom"] World.empty).2.stderr
      = "CRITICAL: 2024/03/09 07:05:42 fatal: oom\n" :=
  ⟨by decide,
   (Criticalf_exits_after_write CreateLogger sampleTime "fatal: %s" [.str "oom"]
      World.empty (by decide)).2.2.1,
   by decide⟩

/-! ## The shape of an emitted line -/

theorem digitChar_ne_space (d : Nat) : digitChar d ≠ ' ' := by
  have h : d % 10 < 10 := Nat.mod_lt _ (by decide)
  unfold digitChar
  generalize d % 10 = k at h
  interval_cases k <;> decide

theorem itoaLoop_no_space (fuel i wid : Nat) : ' ' ∉ itoaLoop fuel i wid := by
  induction fuel generalizing i wid with
  | zero => simpa [itoaLoop] using (digitChar_ne_space i).symm
  | succ n ih =>
    unfold itoaLoop
    split
    · simp only [List.mem_append, List.mem_singleton, not_or]
      exact ⟨ih _ _, (digitChar_ne_space i).symm⟩
    · simpa using (digitChar_ne_space i).symm

theorem itoa_no_space (i wid : Nat) : ' ' ∉ itoa i wid :=
  itoaLoop_no_space _ _ _

/-- The fuel `i + wid` is enough: any larger fuel gives the same digits. -/
theorem itoaLoop_fuel (fuel fuel2 i wid : Nat) (h1 : i + wid ≤ fuel) (h2 : i + wid ≤ fuel2) :
    itoaLoop fuel i wid = itoaLoop fuel2 i wid := by
  induction fuel generalizing fuel2 i wid with
  | zero =>
    have hi : i = 0 := by omega
    have hw : wid = 0 := by omega
    subst hi hw
    cases fuel2 <;> simp [itoaLoop]
  | succ n ih =>
    by_cases hc : 10 ≤ i ∨ 1 < wid
    · cases fuel2 with
      | zero => omega
      | succ m =>
        simp only [itoaLoop, hc, if_true]
        rw [ih m (i / 10) (wid - 1) (by omega) (by omega)]
    · cases fuel2 <;> simp [itoaLoop, hc]

/-- The loop equation of `log.itoa`, free of fuel. -/
theorem itoa_unfold (i wid : Nat) :
    itoa i wid
      = if 10 ≤ i ∨ 1 < wid then itoa (i / 10) (wid - 1) ++ [digitChar i]
        else [digitChar i] := by
  by_cases hc : 10 ≤ i ∨ 1 < wid
  · have hpos : i + wid = (i + wid - 1) + 1 := by omega
    simp only [hc, if_true]
    unfold itoa
    rw [hpos]
    simp only [itoaLoop, hc, if_true]
    rw [itoaLoop_fuel (i + wid - 1) (i / 10 + (wid - 1)) (i / 10) (wid - 1)
      (by omega) (le_refl _)]
  · simp only [hc, if_false]
    unfold itoa
    cases h : i + wid <;> simp [itoaLoop, hc]

theorem dateField_no_space (t : Time) : ' ' ∉ (dateField t).data := by
  simp [dateField, itoa_no_space]

theorem timeField_no_space (t : Time) : ' ' ∉ (timeField t).data := by
  simp [timeField, itoa_no_space]

theorem splitChars_ne_nil (sep : Char) (s : List Char) : splitChars sep s ≠ [] := by
  cases s with
  | nil => simp [splitChars]
  | cons c cs =>
    unfold splitChars
    split
    · simp
    · split <;> simp

theorem splitChars_append_sep (sep : Char) (a r : List Char) (ha : sep ∉ a) :
    splitChars sep (a ++ sep :: r) = a :: splitChars sep r := by
  induction a with
  | nil => simp [splitChars]
  | cons c cs ih =>
    have hc : c ≠ sep := fun h => ha (by simp [h])
    have hcs : sep ∉ cs := fun h => ha (by simp [h])
    have e : splitChars sep (cs.append (sep :: r)) = cs :: splitChars sep r := ih hcs
    simp only [List.cons_append, splitChars, hc, if_false]
    rw [e]

theorem joinChars_cons (sep : Char) (x : List Char) (ys : List (List Char)) (h : ys ≠ []) :
    joinChars sep (x :: ys) = x ++ sep :: joinChars sep ys := by
  cases ys with
  | nil => exact absurd rfl h
  | cons y rest => rfl

theorem joinChars_splitChars (sep : Char) (s : List Char) :
    joinChars sep (splitChars sep s) = s := by
  induction s with
  | nil => rfl
  | cons c cs ih =>
    unfold splitChars
    split
    · rename_i h
      rw [joinChars_cons _ _ _ (splitChars_ne_nil sep cs), ih, h]
      rfl
    · split
      · rename_i h
        exact absurd h (splitChars_ne_nil sep cs)
      · rename_i x xs h
        rw [h] at ih
        cases xs with
        | nil => simpa [joinChars] using ih
        | cons y rest =>
          simp only [joinChars] at ih ⊢
          simp [← ih]

theorem Level.name_no_space (L : Level) : ' ' ∉ L.name.data := by
  cases L <;> decide

theorem StdLogger.line_data (s : StdLogger) (L : Level) (now : Time) (message : String)
    (htag : s.tag = L.name ++ ": ") (hflag : s.flag = Ldate ||| Ltime) :
    (s.line now message).data
      = (L.name.data ++ [':']) ++ ' ' :: ((dateField now).data ++ ' ' ::
          ((timeField now).data ++ ' ' :: (message.data ++ ['\n']))) := by
  have h1 : (Ldate ||| Ltime) &&& Ldate ≠ 0 := by decide
  have h2 : (Ldate ||| Ltime) &&& Ltime ≠ 0 := by decide
  have e1 : (": " : String).data = [':', ' '] := rfl
  have e2 : (" " : String).data = [' '] := rfl
  have e3 : ("\n" : String).data = ['\n'] := rfl
  simp only [StdLogger.line, StdLogger.formatHeader, htag, hflag, h1, h2, ne_eq,
    not_false_eq_true, if_true, String.data_append, e1, e2, e3, List.append_assoc,
    List.cons_append, List.nil_append, List.singleton_append]

/-- What `removeDateAndTime` leaves of the line of a sink built by
`createLogs`: the level tag and the message with its newline. -/
theorem removeDateAndTime_line (s : StdLogger) (L : Level) (now : Time) (message : String)
    (htag : s.tag = L.name ++ ": ") (hflag : s.flag = Ldate ||| Ltime) :
    removeDateAndTime (s.line now message) = some (L.name ++ ": " ++ message ++ "\n") := by
  have hn : ' ' ∉ L.name.data ++ [':'] := by
    simp only [List.mem_append, List.mem_singleton, not_or]
    exact ⟨L.name_no_space, by decide⟩
  unfold removeDateAndTime
  rw [s.line_data L now message htag hflag,
    splitChars_append_sep _ _ _ hn,
    splitChars_append_sep _ _ _ (dateField_no_space now),
    splitChars_append_sep _ _ _ (timeField_no_space now)]
  have hlen : 3 ≤ ((L.name.data ++ [':']) :: (dateField now).data :: (timeField now).data ::
      splitChars ' ' (message.data ++ ['\n'])).length := by
    simp
  simp only [hlen, if_true, List.take, List.drop, List.singleton_append]
  rw [joinChars_cons _ _ _ (splitChars_ne_nil _ _), joinChars_splitChars]
  congr 1
  apply String.ext
  have e1 : (": " : String).data = [':', ' '] := rfl
  have e3 : ("\n" : String).data = ['\n'] := rfl
  simp [String.data_append, e1, e3]

/-- A logging method adds to the journal either nothing or the one write call
on the sink of its level. -/
theorem logf_writes_cases (l : Logger) (L : Level) (now : Time) (logMessage : String)
    (arguments : List Arg) (w : World) :
    (l.logf L now logMessage arguments w).2.writes = w.writes
    ∨ (l.logf L now logMessage arguments w).2.writes
      = w.writes ++ [((l.sink L).out,
          (l.sink L).line now (l.logPrefix ++ Sprintf logMessage arguments))] := by
  cases L <;>
    simp [Logger.logf, Logger.Debugf, Logger.Infof, Logger.Warningf, Logger.Criticalf,
      Logger.sendLog, Logger.sink] <;>
    split <;> simp [StdLogger.Println_writes, World.Exit_writes]

theorem createLogs_sink_tag (l : Logger) (dw iw ww cw : Writer) (L : Level) :
    ((l.createLogs dw iw ww cw).sink L).tag = L.name ++ ": "
    ∧ ((l.createLogs dw iw ww cw).sink L).flag = Ldate ||| Ltime := by
  cases L <;> exact ⟨rfl, rfl⟩

/-- C4: for a logger whose sinks were built by `createLogs` (every logger made
by `init`, `initTest` or `SetLogFile`), with any prefix: whenever the logging
method of level L makes its write call, the bytes it passes to the sink of L,
once `removeDateAndTime` has dropped the date and time fields, are exactly
the tag `<L>: `, the prefix, the formatted message and a newline. -/
theorem emitted_line_without_date_time (l0 : Logger) (dw iw ww cw : Writer) (L : Level)
    (now : Time) (logMessage : String) (arguments : List Arg) (w : World) (bytes : String)
    (hw : ((l0.createLogs dw iw ww cw).logf L now logMessage arguments w).2.writes
      = w.writes ++ [(((l0.createLogs dw iw ww cw).sink L).out, bytes)]) :
    removeDateAndTime bytes
      = some (L.name ++ ": " ++ l0.logPrefix ++ Sprintf logMessage arguments ++ "\n") := by
  have hb : bytes = ((l0.createLogs dw iw ww cw).sink L).line now
      ((l0.createLogs dw iw ww cw).logPrefix ++ Sprintf logMessage arguments) := by
    rcases logf_writes_cases (l0.createLogs dw iw ww cw) L now logMessage arguments w
      with h | h
    · rw [h] at hw
      simp at hw
    · rw [h] at hw
      have := List.append_cancel_left hw
      simp only [List.cons.injEq, Prod.mk.injEq, true_and, and_true] at this
      exact this.symm
  have ht := createLogs_sink_tag l0 dw iw ww cw L
  rw [hb, removeDateAndTime_line _ L now _ ht.1 ht.2]
  have hp : (l0.createLogs dw iw ww cw).logPrefix = l0.logPrefix := rfl
  rw [hp, ← String.append_assoc]

/-- Witness for C4: the scenario of the specification, `Warningf` with
`disk at %d%%` and 91 under threshold DEBUG. -/
theorem emitted_line_without_date_time_witness :
    (CreateLogger.Warningf sampleTime "disk at %d%%" [.int 91] World.empty).2.writes
      = World.empty.writes
        ++ [(Writer.stdout, "WARNING: 2024/03/09 07:05:42 disk at 91%\n")]
    ∧ removeDateAndTime "WARNING: 2024/03/09 07:05:42 disk at 91%\n"
      = some "WARNING: disk at 91%\n" :=
  ⟨by decide,
   emitted_line_without_date_time { Logger.zero with logLevel := "DEBUG" }
     .stdout .stdout .stdout .stderr Level.WARNING sampleTime "disk at %d%%" [.int 91]
     World.empty "WARNING: 2024/03/09 07:05:42 disk at 91%\n" (by decide)⟩

/-! ## Facts about formatting -/

theorem doPrintf_cons_plain (c : Char) (rest : List Char) (args : List Arg) (hc : c ≠ '%') :
    doPrintf (c :: rest) args = c :: doPrintf rest args := by
  conv_lhs => rw [doPrintf.eq_def]
  simp [hc]

theorem doPrintf_verb (v : Char) (rest : List Char) (x : Arg) (xs : List Arg)
    (hv : v ≠ '%') :
    doPrintf ('%' :: v :: rest) (x :: xs) = fmtVerb v x ++ doPrintf rest xs := by
  conv_lhs => rw [doPrintf.eq_def]
  simp [hv]

theorem doPrintf_missing (v : Char) (rest : List Char) (hv : v ≠ '%') :
    doPrintf ('%' :: v :: rest) []
      = "%!".data ++ [v] ++ "(MISSING)".data ++ doPrintf rest [] := by
  conv_lhs => rw [doPrintf.eq_def]
  simp [hv]

theorem doPrintf_plain (pre rest : List Char) (args : List Arg) (h : '%' ∉ pre) :
    doPrintf (pre ++ rest) args = pre ++ doPrintf rest args := by
  induction pre with
  | nil => rfl
  | cons c cs ih =>
    have hc : c ≠ '%' := fun e => h (by simp [e])
    have hcs : '%' ∉ cs := fun e => h (by simp [e])
    rw [List.cons_append, doPrintf_cons_plain _ _ _ hc, ih hcs, List.cons_append]

theorem doPrintf_nil_nil : doPrintf [] [] = [] := by
  rw [doPrintf.eq_def]
  rfl

/-- A format without a percent sign and without arguments is printed as it
is. -/
theorem Sprintf_no_percent (format : String) (h : '%' ∉ format.data) :
    Sprintf format [] = format := by
  have := doPrintf_plain format.data [] [] h
  rw [List.append_nil, doPrintf_nil_nil, List.append_nil] at this
  unfold Sprintf
  rw [this]

/-- The message `SetLogLevel` logs for a level name it does not accept. -/
theorem Sprintf_invalid_level (s : String) :
    Sprintf "%s is not a valid log level\n" [.str s] = s ++ " is not a valid log level\n" := by
  have ht : ("%s is not a valid log level\n" : String).data
      = '%' :: 's' :: ((" is not a valid log level\n" : String).data ++ []) := rfl
  apply String.ext
  unfold Sprintf
  rw [ht, doPrintf_verb _ _ _ _ (by decide), doPrintf_plain _ _ _ (by decide),
    doPrintf_nil_nil, List.append_nil, String.data_append]
  rfl

/-- The composite message of `checkError`, before `sendLog` formats it
again. -/
theorem Sprintf_error_check (developerMessage errorMessage : String) :
    Sprintf "Error check failed. Dev message: '%s' Error message: '%s'"
        [.str developerMessage, .str errorMessage]
      = "Error check failed. Dev message: '" ++ developerMessage
          ++ "' Error message: '" ++ errorMessage ++ "'" := by
  have ht : ("Error check failed. Dev message: '%s' Error message: '%s'" : String).data
      = ("Error check failed. Dev message: '" : String).data ++ '%' :: 's' ::
          (("' Error message: '" : String).data ++ '%' :: 's' ::
            (("'" : String).data ++ [])) := rfl
  apply String.ext
  unfold Sprintf
  rw [ht, doPrintf_plain _ _ _ (by decide), doPrintf_verb _ _ _ _ (by decide),
    doPrintf_plain _ _ _ (by decide), doPrintf_verb _ _ _ _ (by decide),
    doPrintf_plain _ _ _ (by decide), doPrintf_nil_nil]
  simp only [String.data_append, List.append_nil, List.append_assoc]
  rfl

/-! ## Error-aware logging with an error present -/

/-- With an error present `checkError` hands the composite message to
`sendLog` as its template, with no arguments. -/
theorem checkError_some (l : Logger) (now : Time) (errorText logLevel logMessage : String)
    (arguments : List Arg) (w : World) :
    l.checkError now (some errorText) logLevel logMessage arguments w
      = l.sendLog now logLevel
          ("Error check failed. Dev message: '" ++ Sprintf logMessage arguments
            ++ "' Error message: '" ++ errorText ++ "'") [] w := by
  simp only [Logger.checkError, Sprintf_error_check]

/-- When neither the developer message nor the error text holds a percent
sign, the second formatting in `sendLog` changes nothing, and the error-aware
method of level L logs exactly what the plain method logs for the composite
message. -/
theorem logfError_of_no_percent (l : Logger) (L : Level) (now : Time)
    (errorText logMessage : String) (arguments : List Arg) (w : World)
    (hd : '%' ∉ (Sprintf logMessage arguments).data) (he : '%' ∉ errorText.data) :
    Sprintf ("Error check failed. Dev message: '" ++ Sprintf logMessage arguments
        ++ "' Error message: '" ++ errorText ++ "'") []
      = "Error check failed. Dev message: '" ++ Sprintf logMessage arguments
        ++ "' Error message: '" ++ errorText ++ "'"
    ∧ l.logfError L now (some errorText) logMessage arguments w
      = l.logf L now ("Error check failed. Dev message: '" ++ Sprintf logMessage arguments
        ++ "' Error message: '" ++ errorText ++ "'") [] w := by
  refine ⟨?_, ?_⟩
  · apply Sprintf_no_percent
    have e1 : '%' ∉ ("Error check failed. Dev message: '" : String).data := by decide
    have e2 : '%' ∉ ("' Error message: '" : String).data := by decide
    have e3 : '%' ∉ ("'" : String).data := by decide
    simp only [String.data_append, List.mem_append, not_or]
    exact ⟨⟨⟨⟨e1, hd⟩, e2⟩, he⟩, e3⟩
  · cases L <;>
      simp only [Logger.logfError, Logger.DebugfError, Logger.InfofError,
        Logger.WarningfError, Logger.CriticalfError, checkError_some, Logger.logf,
        Logger.Debugf, Logger.Infof, Logger.Warningf, Logger.Criticalf]

set_option maxRecDepth 100000 in
/-- C3: the code at the failing input.  A testing logger at threshold DEBUG
gets `InfofError` with the error text `expected %d bytes` and the template
`read %s` with argument `a.txt`.  The one line written to the info sink carries
`expected %!d(MISSING) bytes`: `sendLog` has formatted the composite message a
second time, so the line is not the composite message the claim and the test
describe, and the error text is no longer part of it. -/
theorem checkError_formats_message_twice :
    ((Logger.zero.initTest (.buffer 0) (.buffer 1) (.buffer 2) (.buffer 3)).InfofError
        sampleTime (some "expected %d bytes") "read %s" [.str "a.txt"] World.empty).2.writes
      = [(Writer.buffer 1,
          "INFO: 2024/03/09 07:05:42 Error check failed. Dev message: 'read a.txt' Error message: 'expected %!d(MISSING) bytes'\n")]
    ∧ ((Logger.zero.initTest (.buffer 0) (.buffer 1) (.buffer 2) (.buffer 3)).InfofError
        sampleTime (some "expected %d bytes") "read %s" [.str "a.txt"] World.empty).2.buffers 1
      ≠ "INFO: 2024/03/09 07:05:42 " ++ "Error check failed. Dev message: '"
          ++ Sprintf "read %s" [.str "a.txt"] ++ "' Error message: '" ++ "expected %d bytes"
          ++ "'" ++ "\n"
    ∧ ¬ ("expected %d bytes".data <:+:
        (((Logger.zero.initTest (.buffer 0) (.buffer 1) (.buffer 2) (.buffer 3)).InfofError
          sampleTime (some "expected %d bytes") "read %s" [.str "a.txt"]
          World.empty).2.buffers 1).data) := by
  refine ⟨by decide, by decide, by decide⟩

/-! ## Configuration: threshold and prefix -/

theorem sendLog_fst (l : Logger) (now : Time) (logLevel logMessage : String)
    (arguments : List Arg) (w : World) :
    (l.sendLog now logLevel logMessage arguments w).1 = l := by
  unfold Logger.sendLog
  split_ifs <;> rfl

theorem Criticalf_eq (l : Logger) (now : Time) (logMessage : String)
    (arguments : List Arg) (w : World) :
    l.Criticalf now logMessage arguments w
      = (l, if l.testing = true
          then l.critical.Println now (l.logPrefix ++ Sprintf logMessage arguments) w
          else (l.critical.Println now (l.logPrefix ++ Sprintf logMessage arguments) w).Exit 1)
    := by
  cases ht : l.testing <;> simp [Logger.Criticalf, Logger.sendLog, ht]


/-- C7, as the code has it: for a string that is not one of the four level
names `SetLogLevel` leaves the logger, and so its threshold, unchanged, and
returns no error value; it logs `<s> is not a valid log level` at CRITICAL
level on the critical sink, and then the process exits with status 1 unless
the logger is in testing mode, where the call returns normally. -/
theorem SetLogLevel_invalid_logs_critical (l : Logger) (now : Time) (s : String) (w : World)
    (hs : ¬ (s = "DEBUG" ∨ s = "INFO" ∨ s = "WARNING" ∨ s = "CRITICAL")) :
    (l.SetLogLevel now s w).1 = l
    ∧ (l.SetLogLevel now s w).1.logLevel = l.logLevel
    ∧ (l.SetLogLevel now s w).2.writes
      = w.writes ++ [(l.critical.out,
          l.critical.line now (l.logPrefix ++ (s ++ " is not a valid log level\n")))]
    ∧ (l.testing = false → (l.SetLogLevel now s w).2.exited = some 1)
    ∧ (l.testing = true → (l.SetLogLevel now s w).2.exited = w.exited) := by
  have h : l.SetLogLevel now s w
      = l.Criticalf now "%s is not a valid log level\n" [.str s] w := by
    simp only [Logger.SetLogLevel, hs, if_false]
  rw [h, Criticalf_eq, Sprintf_invalid_level]
  refine ⟨rfl, rfl, ?_, ?_, ?_⟩
  · split <;> simp [StdLogger.Println_writes, World.Exit_writes]
  · intro ht
    simp [ht, World.Exit]
  · intro ht
    simp [ht, StdLogger.Println_exited]

/-- Witness for C7 as amended: a testing logger given the name `debug`. -/
theorem SetLogLevel_invalid_logs_critical_witness :
    ((Logger.zero.initTest (.buffer 0) (.buffer 1) (.buffer 2) (.buffer 3)).SetLogLevel
        sampleTime "debug" World.empty).1.logLevel = "DEBUG"
    ∧ ((Logger.zero.initTest (.buffer 0) (.buffer 1) (.buffer 2) (.buffer 3)).SetLogLevel
        sampleTime "debug" World.empty).2.buffers 3
      = "CRITICAL: 2024/03/09 07:05:42 debug is not a valid log level\n\n" :=
  ⟨(SetLogLevel_invalid_logs_critical
      (Logger.zero.initTest (.buffer 0) (.buffer 1) (.buffer 2) (.buffer 3))
      sampleTime "debug" World.empty (by decide)).2.1,
   by decide⟩

/-- Counterexample to C7 as stated: on the logger of `CreateLogger` the call
`SetLogLevel("debug")` does not come back to its caller with an error to
handle; the process has exited with status 1. -/
theorem SetLogLevel_invalid_not_recoverable :
    ¬ ("debug" = "DEBUG" ∨ "debug" = "INFO" ∨ "debug" = "WARNING" ∨ "debug" = "CRITICAL")
    ∧ (CreateLogger.SetLogLevel sampleTime "debug" World.empty).2.exited = some 1
    ∧ (CreateLogger.SetLogLevel sampleTime "debug" World.empty).2.stderr
      = "CRITICAL: 2024/03/09 07:05:42 debug is not a valid log level\n\n" := by
  refine ⟨by decide, by decide, by decide⟩

/-- C8: `SetLogLevel` accepts exactly the four names.  For each of them the
threshold becomes that name while sinks, file path, prefix and testing flag
keep their values and the world is untouched (nothing is written); for every
other string, such as `debug` or the empty string, the logger keeps the
threshold it had. -/
theorem SetLogLevel_accepts_exactly_four (l : Logger) (now : Time) (s : String) (w : World) :
    ((s = "DEBUG" ∨ s = "INFO" ∨ s = "WARNING" ∨ s = "CRITICAL") →
      l.SetLogLevel now s w = ({ l with logLevel := s }, w)
      ∧ (l.SetLogLevel now s w).1.logLevel = s
      ∧ (l.SetLogLevel now s w).1.logPrefix = l.logPrefix
      ∧ (l.SetLogLevel now s w).1.logFile = l.logFile
      ∧ (l.SetLogLevel now s w).1.testing = l.testing
      ∧ (∀ L : Level, (l.SetLogLevel now s w).1.sink L = l.sink L)
      ∧ (l.SetLogLevel now s w).2 = w)
    ∧ (¬ (s = "DEBUG" ∨ s = "INFO" ∨ s = "WARNING" ∨ s = "CRITICAL") →
      (l.SetLogLevel now s w).1.logLevel = l.logLevel)
    ∧ ((l.SetLogLevel now s w).1.logLevel ≠ l.logLevel →
      (s = "DEBUG" ∨ s = "INFO" ∨ s = "WARNING" ∨ s = "CRITICAL")) := by
  have hbad : ¬ (s = "DEBUG" ∨ s = "INFO" ∨ s = "WARNING" ∨ s = "CRITICAL") →
      (l.SetLogLevel now s w).1.logLevel = l.logLevel := by
    intro hs
    simp only [Logger.SetLogLevel, hs, if_false, Criticalf_eq]
  refine ⟨?_, hbad, ?_⟩
  · intro hs
    have h : l.SetLogLevel now s w = ({ l with logLevel := s }, w) := by
      simp only [Logger.SetLogLevel, hs, if_true]
    rw [h]
    refine ⟨rfl, rfl, rfl, rfl, rfl, ?_, rfl⟩
    intro L
    cases L <;> rfl
  · intro hne
    by_contra hs
    exact hne (hbad hs)

/-- Witness for C8: `INFO` is accepted, `debug` and the empty string are
not. -/
theorem SetLogLevel_accepts_exactly_four_witness :
    (CreateLogger.SetLogLevel sampleTime "INFO" World.empty).1.logLevel = "INFO"
    ∧ ((Logger.zero.initTest (.buffer 0) (.buffer 1) (.buffer 2) (.buffer 3)).SetLogLevel
        sampleTime "debug" World.empty).1.logLevel = "DEBUG"
    ∧ ((Logger.zero.initTest (.buffer 0) (.buffer 1) (.buffer 2) (.buffer 3)).SetLogLevel
        sampleTime "" World.empty).1.logLevel = "DEBUG" :=
  ⟨((SetLogLevel_accepts_exactly_four CreateLogger sampleTime "INFO" World.empty).1
      (by decide)).2.1,
   (SetLogLevel_accepts_exactly_four
      (Logger.zero.initTest (.buffer 0) (.buffer 1) (.buffer 2) (.buffer 3))
      sampleTime "debug" World.empty).2.1 (by decide),
   (SetLogLevel_accepts_exactly_four
      (Logger.zero.initTest (.buffer 0) (.buffer 1) (.buffer 2) (.buffer 3))
      sampleTime "" World.empty).2.1 (by decide)⟩

/-- C9: `SetPrefixf` stores the formatted template followed by one space as
the prefix, whatever the earlier prefix was; threshold, file path, sinks and
testing flag keep their values, the world is untouched (nothing is written, the
process goes on), and the method has no other outcome. -/
theorem SetPrefixf_stores_formatted_prefix (l : Logger) (newTemplate : String)
    (arguments : List Arg) (w : World) :
    l.SetPrefixf newTemplate arguments w
      = ({ l with logPrefix := Sprintf newTemplate arguments ++ " " }, w)
    ∧ (l.SetPrefixf newTemplate arguments w).1.logPrefix
      = Sprintf newTemplate arguments ++ " "
    ∧ (l.SetPrefixf newTemplate arguments w).1.logLevel = l.logLevel
    ∧ (l.SetPrefixf newTemplate arguments w).1.logFile = l.logFile
    ∧ (l.SetPrefixf newTemplate arguments w).1.testing = l.testing
    ∧ (∀ L : Level, (l.SetPrefixf newTemplate arguments w).1.sink L = l.sink L)
    ∧ (l.SetPrefixf newTemplate arguments w).2 = w := by
  refine ⟨rfl, rfl, rfl, rfl, rfl, ?_, rfl⟩
  intro L
  cases L <;> rfl

/-! ## Attaching a log file -/

/-- A successful open returns the world with the file present. -/
theorem OpenFile_ok (path : String) (w : World)
    (hopen : (OpenFile path w).1 = .ok (.file path)) :
    (∃ c, (OpenFile path w).2.fs path = .regular c)
    ∧ (∀ c, w.fs path = .regular c → (OpenFile path w).2 = w)
    ∧ (OpenFile path w).2.writes = w.writes
    ∧ (OpenFile path w).2.exited = w.exited
    ∧ (OpenFile path w).2.stdout = w.stdout
    ∧ (OpenFile path w).2.stderr = w.stderr
    ∧ (OpenFile path w).2.buffers = w.buffers := by
  unfold OpenFile at hopen ⊢
  cases h : w.fs path with
  | absent => simp [h]
  | regular c => simp [h]
  | blocked cause => simp [h] at hopen

/-- Writing through a writer that pairs an open file with a console stream
appends the bytes to the file and, after it, to the stream. -/
theorem World.write_multi_file (path p c : String) (console : Writer) (w : World)
    (hf : w.fs path = .regular c) :
    World.write (.multi (.file path) console) p w
      = World.write console p
          { w with fs := Function.update w.fs path (.regular (c ++ p)) } := by
  simp [World.write, hf]

/-- C10: when the path opens, `SetLogFile` returns the logger in which all four
sinks have been rebuilt by one `createLogs` call: debug, info and warning write
to the file and standard output, critical writes to the file and standard
error, which for the sinks of a logger from `CreateLogger` is the file in
addition to the stream they had.  The path is stored as the file path; the
threshold, the prefix and the testing flag keep their values.  The call itself
writes nothing and does not end the process; the file exists afterwards, and a
later write through a sink appends the bytes to the file and to the console
stream. -/
theorem SetLogFile_success_rewires_sinks (l : Logger) (now : Time) (path : String)
    (w : World) (hopen : (OpenFile path w).1 = .ok (.file path)) :
    l.SetLogFile now path w
      = (Logger.createLogs { l with logFile := path }
          (.multi (.file path) .stdout) (.multi (.file path) .stdout)
          (.multi (.file path) .stdout) (.multi (.file path) .stderr),
         (OpenFile path w).2)
    ∧ (∀ L : Level, L ≠ Level.CRITICAL →
        ((l.SetLogFile now path w).1.sink L).out = .multi (.file path) .stdout)
    ∧ ((l.SetLogFile now path w).1.sink Level.CRITICAL).out = .multi (.file path) .stderr
    ∧ (∀ L : Level, (l.sink L).out = (CreateLogger.sink L).out →
        ((l.SetLogFile now path w).1.sink L).out = .multi (.file path) (l.sink L).out)
    ∧ (l.SetLogFile now path w).1.logFile = path
    ∧ (l.SetLogFile now path w).1.logLevel = l.logLevel
    ∧ (l.SetLogFile now path w).1.logPrefix = l.logPrefix
    ∧ (l.SetLogFile now path w).1.testing = l.testing
    ∧ (l.SetLogFile now path w).2.writes = w.writes
    ∧ (l.SetLogFile now path w).2.exited = w.exited
    ∧ (∃ c, (l.SetLogFile now path w).2.fs path = .regular c)
    ∧ (∀ (L : Level) (p c : String) (w2 : World), w2.fs path = .regular c →
        (World.write ((l.SetLogFile now path w).1.sink L).out p w2).1.fs path
          = .regular (c ++ p)
        ∧ (L ≠ Level.CRITICAL →
            (World.write ((l.SetLogFile now path w).1.sink L).out p w2).1.stdout
              = w2.stdout ++ p)
        ∧ (L = Level.CRITICAL →
            (World.write ((l.SetLogFile now path w).1.sink L).out p w2).1.stderr
              = w2.stderr ++ p)) := by
  have h : l.SetLogFile now path w
      = (Logger.createLogs { l with logFile := path }
          (.multi (.file path) .stdout) (.multi (.file path) .stdout)
          (.multi (.file path) .stdout) (.multi (.file path) .stderr),
         (OpenFile path w).2) := by
    unfold Logger.SetLogFile
    generalize ho : OpenFile path w = o at hopen
    obtain ⟨res, w1⟩ := o
    simp only at hopen
    subst hopen
    rfl
  obtain ⟨hex, -, hwr, hxt, -, -, -⟩ := OpenFile_ok path w hopen
  rw [h]
  refine ⟨rfl, ?_, rfl, ?_, rfl, rfl, rfl, rfl, hwr, hxt, hex, ?_⟩
  · intro L hL
    cases L
    · rfl
    · rfl
    · rfl
    · exact absurd rfl hL
  · intro L hL
    cases L <;> simp only [Logger.sink, Logger.createLogs] at hL ⊢ <;> rw [hL] <;> rfl
  · intro L p c w2 hf
    cases L <;>
      simp only [Logger.sink, Logger.createLogs] <;>
      rw [World.write_multi_file _ _ _ _ _ hf] <;>
      simp [World.write]

/-- Witness for C10: the logger of `CreateLogger` gets the file `app.log`,
which does not exist yet, and then logs a warning; the line is in the file and
on standard output. -/
theorem SetLogFile_success_rewires_sinks_witness :
    (OpenFile "app.log" World.empty).1 = .ok (.file "app.log")
    ∧ ((CreateLogger.SetLogFile sampleTime "app.log" World.empty).1.sink Level.CRITICAL).out
      = .multi (.file "app.log") .stderr
    ∧ (((CreateLogger.SetLogFile sampleTime "app.log" World.empty).1.Warningf sampleTime
          "disk at %d%%" [.int 91]
          (CreateLogger.SetLogFile sampleTime "app.log" World.empty).2).2.fs "app.log"
        = .regular "WARNING: 2024/03/09 07:05:42 disk at 91%\n")
    ∧ (((CreateLogger.SetLogFile sampleTime "app.log" World.empty).1.Warningf sampleTime
          "disk at %d%%" [.int 91]
          (CreateLogger.SetLogFile sampleTime "app.log" World.empty).2).2.stdout
        = "WARNING: 2024/03/09 07:05:42 disk at 91%\n") :=
  ⟨rfl,
   (SetLogFile_success_rewires_sinks CreateLogger sampleTime "app.log" World.empty rfl).2.2.1,
   by decide, by decide⟩

/-- C11, as the code has it: when the path cannot be opened and the logger is
not in testing mode, `SetLogFile` returns no error value; it stores the path,
logs the text of the open error, which carries the cause, at CRITICAL level on
the critical sink the logger had, and the process exits with status 1.  The
four sinks are the ones the logger had.  The error text goes through `Sprintf`
as a format, which leaves it as it is when it holds no percent sign. -/
theorem SetLogFile_failure_logs_critical (l : Logger) (now : Time) (path cause : String)
    (w : World) (hb : w.fs path = .blocked cause) (ht : l.testing = false) :
    (l.SetLogFile now path w).1 = { l with logFile := path }
    ∧ (∀ L : Level, (l.SetLogFile now path w).1.sink L = l.sink L)
    ∧ (l.SetLogFile now path w).2.writes
      = w.writes ++ [(l.critical.out, l.critical.line now
          (l.logPrefix ++ Sprintf ("open " ++ path ++ ": " ++ cause) []))]
    ∧ (l.SetLogFile now path w).2.exited = some 1
    ∧ ('%' ∉ path.data → '%' ∉ cause.data →
        Sprintf ("open " ++ path ++ ": " ++ cause) [] = "open " ++ path ++ ": " ++ cause) := by
  have ho : OpenFile path w = (.error ("open " ++ path ++ ": " ++ cause), w) := by
    simp [OpenFile, hb]
  have h : l.SetLogFile now path w
      = ({ l with logFile := path },
         (l.critical.Println now
            (l.logPrefix ++ Sprintf ("open " ++ path ++ ": " ++ cause) []) w).Exit 1) := by
    unfold Logger.SetLogFile
    rw [ho]
    simp [Criticalf_eq, ht, World.Exit]
  rw [h]
  refine ⟨rfl, ?_, ?_, rfl, ?_⟩
  · intro L
    cases L <;> rfl
  · simp [World.Exit_writes, StdLogger.Println_writes]
  · intro hp hc
    apply Sprintf_no_percent
    have e1 : '%' ∉ ("open " : String).data := by decide
    have e2 : '%' ∉ (": " : String).data := by decide
    simp only [String.data_append, List.mem_append, not_or]
    exact ⟨⟨⟨e1, hp⟩, e2⟩, hc⟩

/-- Witness for C11 as amended: the logger of `CreateLogger` and a path in a
directory that does not exist. -/
theorem SetLogFile_failure_logs_critical_witness :
    (World.blockedAt "/nodir/app.log" "no such file or directory").fs "/nodir/app.log"
      = .blocked "no such file or directory"
    ∧ CreateLogger.testing = false
    ∧ (CreateLogger.SetLogFile sampleTime "/nodir/app.log"
        (World.blockedAt "/nodir/app.log" "no such file or directory")).2.exited = some 1
    ∧ (CreateLogger.SetLogFile sampleTime "/nodir/app.log"
        (World.blockedAt "/nodir/app.log" "no such file or directory")).2.stderr
      = "CRITICAL: 2024/03/09 07:05:42 open /nodir/app.log: no such file or directory\n" :=
  ⟨by decide, by decide,
   (SetLogFile_failure_logs_critical CreateLogger sampleTime "/nodir/app.log"
      "no such file or directory"
      (World.blockedAt "/nodir/app.log" "no such file or directory")
      (by decide) (by decide)).2.2.2.1,
   by decide⟩

/-- Counterexample to C11 as stated: with a path that cannot be opened, the
logger of `CreateLogger` does not hand an error back, the process has exited
with status 1; and a testing logger comes back with none of its four sinks
left as it was, each rebuilt over the nil file handle. -/
theorem SetLogFile_failure_not_reported :
    (CreateLogger.SetLogFile sampleTime "/nodir/app.log"
        (World.blockedAt "/nodir/app.log" "no such file or directory")).2.exited = some 1
    ∧ (∀ L : Level,
        (((Logger.zero.initTest (.buffer 0) (.buffer 1) (.buffer 2) (.buffer 3)).SetLogFile
          sampleTime "/nodir/app.log"
          (World.blockedAt "/nodir/app.log" "no such file or directory")).1.sink L).out
        ≠ ((Logger.zero.initTest (.buffer 0) (.buffer 1) (.buffer 2) (.buffer 3)).sink L).out)
    ∧ ((Logger.zero.initTest (.buffer 0) (.buffer 1) (.buffer 2) (.buffer 3)).SetLogFile
        sampleTime "/nodir/app.log"
        (World.blockedAt "/nodir/app.log" "no such file or directory")).1.debug.out
      = .multi .nilFile .stdout := by
  refine ⟨by decide, ?_, by decide⟩
  intro L
  cases L <;> decide

/-! ## Construction -/

/-- C13: `CreateLogger` returns a logger with threshold DEBUG, the sinks of
debug, info and warning on standard output and that of critical on standard
error (each with its level tag and the date and time flags), empty prefix,
empty file path and the testing flag unset, so that CRITICAL ends the process.
`initTest` on a fresh logger gives the same state except that the four sinks
write to the caller's writers and the testing flag is set. -/
theorem CreateLogger_and_initTest_state (dw iw ww cw : Writer) :
    CreateLogger.logLevel = "DEBUG"
    ∧ CreateLogger.debug = { out := .stdout, tag := "DEBUG: ", flag := Ldate ||| Ltime }
    ∧ CreateLogger.info = { out := .stdout, tag := "INFO: ", flag := Ldate ||| Ltime }
    ∧ CreateLogger.warning = { out := .stdout, tag := "WARNING: ", flag := Ldate ||| Ltime }
    ∧ CreateLogger.critical = { out := .stderr, tag := "CRITICAL: ", flag := Ldate ||| Ltime }
    ∧ CreateLogger.logPrefix = ""
    ∧ CreateLogger.logFile = ""
    ∧ CreateLogger.testing = false
    ∧ Logger.zero.initTest dw iw ww cw
      = Logger.createLogs { CreateLogger with testing := true } dw iw ww cw
    ∧ (Logger.zero.initTest dw iw ww cw).logLevel = CreateLogger.logLevel
    ∧ (Logger.zero.initTest dw iw ww cw).logPrefix = CreateLogger.logPrefix
    ∧ (Logger.zero.initTest dw iw ww cw).logFile = CreateLogger.logFile
    ∧ (Logger.zero.initTest dw iw ww cw).testing = true
    ∧ ((Logger.zero.initTest dw iw ww cw).debug.out = dw
      ∧ (Logger.zero.initTest dw iw ww cw).info.out = iw
      ∧ (Logger.zero.initTest dw iw ww cw).warning.out = ww
      ∧ (Logger.zero.initTest dw iw ww cw).critical.out = cw)
    ∧ (∀ L : Level, ((Logger.zero.initTest dw iw ww cw).sink L).tag = (CreateLogger.sink L).tag
      ∧ ((Logger.zero.initTest dw iw ww cw).sink L).flag = (CreateLogger.sink L).flag) := by
  refine ⟨rfl, rfl, rfl, rfl, rfl, rfl, rfl, rfl, rfl, rfl, rfl, rfl, rfl,
    ⟨rfl, rfl, rfl, rfl⟩, ?_⟩
  intro L
  cases L <;> exact ⟨rfl, rfl⟩

/-! ## The threshold invariant -/

theorem checkError_fst (l : Logger) (now : Time) (err : Option String)
    (logLevel logMessage : String) (arguments : List Arg) (w : World) :
    (l.checkError now err logLevel logMessage arguments w).1 = l := by
  cases err with
  | none => rfl
  | some e => simp only [Logger.checkError, sendLog_fst]

theorem logf_fst (l : Logger) (L : Level) (now : Time) (logMessage : String)
    (arguments : List Arg) (w : World) :
    (l.logf L now logMessage arguments w).1 = l := by
  cases L <;>
    simp only [Logger.logf, Logger.Debugf, Logger.Infof, Logger.Warningf, Logger.Criticalf,
      sendLog_fst]

theorem logfError_fst (l : Logger) (L : Level) (now : Time) (err : Option String)
    (logMessage : String) (arguments : List Arg) (w : World) :
    (l.logfError L now err logMessage arguments w).1 = l := by
  cases L <;>
    simp only [Logger.logfError, Logger.DebugfError, Logger.InfofError,
      Logger.WarningfError, Logger.CriticalfError, checkError_fst]

theorem SetLogFile_logLevel (l : Logger) (now : Time) (path : String) (w : World) :
    (l.SetLogFile now path w).1.logLevel = l.logLevel := by
  unfold Logger.SetLogFile
  generalize OpenFile path w = o
  obtain ⟨res, w1⟩ := o
  cases res with
  | ok file => rfl
  | error e =>
    simp only [Criticalf_eq]
    split_ifs <;> rfl

theorem SetLogLevel_validLevel (l : Logger) (now : Time) (s : String) (w : World)
    (h : validLevel l.logLevel) : validLevel (l.SetLogLevel now s w).1.logLevel := by
  unfold Logger.SetLogLevel
  split
  · rename_i hs
    exact hs
  · simpa only [Criticalf_eq] using h

theorem Op.apply_validLevel (op : Op) (now : Time) (s : Logger × World)
    (h : validLevel s.1.logLevel) : validLevel (op.apply now s).1.logLevel := by
  cases op with
  | SetLogLevel newLogLevel => exact SetLogLevel_validLevel _ _ _ _ h
  | SetPrefixf newTemplate arguments => exact h
  | SetLogFile logFilePath =>
    simp only [Op.apply, SetLogFile_logLevel]
    exact h
  | logf L logMessage arguments =>
    simp only [Op.apply, logf_fst]
    exact h
  | logfError L err logMessage arguments =>
    simp only [Op.apply, logfError_fst]
    exact h

theorem run_validLevel (ops : List (Time × Op)) (s : Logger × World)
    (h : validLevel s.1.logLevel) : validLevel (run ops s).1.logLevel := by
  induction ops generalizing s with
  | nil => exact h
  | cons x rest ih =>
    obtain ⟨now, op⟩ := x
    simp only [run]
    split
    · exact h
    · exact ih _ (Op.apply_validLevel op now s h)

/-- C14: whatever finite sequence of `SetLogLevel` (with any string),
`SetPrefixf`, `SetLogFile`, logging and error-aware logging calls is run on the
logger of `CreateLogger` or on a logger set up by `initTest`, in any world, the
threshold of the logger it ends in is one of DEBUG, INFO, WARNING and
CRITICAL. -/
theorem threshold_stays_valid (ops : List (Time × Op)) (l0 : Logger)
    (dw iw ww cw : Writer) (w : World) :
    validLevel (run ops (CreateLogger, w)).1.logLevel
    ∧ validLevel (run ops (l0.initTest dw iw ww cw, w)).1.logLevel := by
  constructor
  · exact run_validLevel ops _ (Or.inl rfl)
  · exact run_validLevel ops _ (Or.inl rfl)

/-! ## One write, one line -/

theorem digitChar_ne_newline (d : Nat) : digitChar d ≠ '\n' := by
  have h : d % 10 < 10 := Nat.mod_lt _ (by decide)
  unfold digitChar
  generalize d % 10 = k at h
  interval_cases k <;> decide

theorem itoaLoop_no_newline (fuel i wid : Nat) : '\n' ∉ itoaLoop fuel i wid := by
  induction fuel generalizing i wid with
  | zero => simpa [itoaLoop] using (digitChar_ne_newline i).symm
  | succ n ih =>
    unfold itoaLoop
    split
    · simp only [List.mem_append, List.mem_singleton, not_or]
      exact ⟨ih _ _, (digitChar_ne_newline i).symm⟩
    · simpa using (digitChar_ne_newline i).symm

theorem itoa_no_newline (i wid : Nat) : '\n' ∉ itoa i wid :=
  itoaLoop_no_newline _ _ _

theorem dateField_no_newline (t : Time) : '\n' ∉ (dateField t).data := by
  simp [dateField, itoa_no_newline]

theorem timeField_no_newline (t : Time) : '\n' ∉ (timeField t).data := by
  simp [timeField, itoa_no_newline]

theorem Level.name_no_newline (L : Level) : '\n' ∉ L.name.data := by
  cases L <;> decide

/-- The header a sink built by `createLogs` writes holds no newline. -/
theorem StdLogger.formatHeader_no_newline (s : StdLogger) (L : Level) (now : Time)
    (htag : s.tag = L.name ++ ": ") (hflag : s.flag = Ldate ||| Ltime) :
    '\n' ∉ (s.formatHeader now).data := by
  have h1 : (Ldate ||| Ltime) &&& Ldate ≠ 0 := by decide
  have h2 : (Ldate ||| Ltime) &&& Ltime ≠ 0 := by decide
  have e1 : '\n' ∉ (": " : String).data := by decide
  have e2 : '\n' ∉ (" " : String).data := by decide
  simp only [StdLogger.formatHeader, htag, hflag, h1, h2, ne_eq, not_false_eq_true, if_true,
    String.data_append, List.mem_append, not_or]
  exact ⟨⟨⟨L.name_no_newline, e1⟩, dateField_no_newline now, e2⟩,
    timeField_no_newline now, e2⟩

/-- The bytes of a line end with a newline; the part before it is the header
and the message. -/
theorem StdLogger.line_last (s : StdLogger) (now : Time) (message : String) :
    (s.line now message).data.getLast? = some '\n'
    ∧ (s.line now message).data.dropLast = (s.formatHeader now).data ++ message.data := by
  have e : ("\n" : String).data = ['\n'] := rfl
  simp [StdLogger.line, String.data_append, e, ← List.append_assoc]

/-- A `sendLog` adds to the journal either nothing or one write call, on one
of the four sinks, carrying the line of the prefixed message. -/
theorem sendLog_writes_cases (l : Logger) (now : Time) (logLevel logMessage : String)
    (arguments : List Arg) (w : World) :
    (l.sendLog now logLevel logMessage arguments w).2.writes = w.writes
    ∨ ∃ L : Level, (l.sendLog now logLevel logMessage arguments w).2.writes
      = w.writes ++ [((l.sink L).out,
          (l.sink L).line now (l.logPrefix ++ Sprintf logMessage arguments))] := by
  unfold Logger.sendLog
  split_ifs
  · exact Or.inr ⟨Level.DEBUG, by simp [StdLogger.Println_writes, Logger.sink]⟩
  · exact Or.inl rfl
  · exact Or.inr ⟨Level.INFO, by simp [StdLogger.Println_writes, Logger.sink]⟩
  · exact Or.inl rfl
  · exact Or.inr ⟨Level.WARNING, by simp [StdLogger.Println_writes, Logger.sink]⟩
  · exact Or.inl rfl
  · exact Or.inr ⟨Level.CRITICAL,
      by simp [StdLogger.Println_writes, World.Exit_writes, Logger.sink]⟩
  · exact Or.inr ⟨Level.CRITICAL, by simp [StdLogger.Println_writes, Logger.sink]⟩
  · exact Or.inl rfl

/-- C15, as the code has it: for a logger whose sinks were built by
`createLogs`, the bytes of every write call a `sendLog` makes (whatever the
level, template, arguments and prefix) end with a newline; when neither the
prefix nor the formatted message holds a newline, the bytes hold no other
newline, so they are a single line. -/
theorem emitted_bytes_single_line (l0 : Logger) (dw iw ww cw : Writer) (now : Time)
    (logLevel logMessage : String) (arguments : List Arg) (w : World)
    (out : Writer) (bytes : String)
    (hw : ((l0.createLogs dw iw ww cw).sendLog now logLevel logMessage arguments w).2.writes
      = w.writes ++ [(out, bytes)]) :
    bytes.data.getLast? = some '\n'
    ∧ ('\n' ∉ l0.logPrefix.data → '\n' ∉ (Sprintf logMessage arguments).data →
        '\n' ∉ bytes.data.dropLast) := by
  rcases sendLog_writes_cases (l0.createLogs dw iw ww cw) now logLevel logMessage arguments w
    with h | ⟨L, h⟩
  · rw [h] at hw
    simp at hw
  · rw [h] at hw
    have hb := List.append_cancel_left hw
    simp only [List.cons.injEq, Prod.mk.injEq, and_true] at hb
    obtain ⟨-, hb⟩ := hb
    subst hb
    have ht := createLogs_sink_tag l0 dw iw ww cw L
    have hl := StdLogger.line_last ((l0.createLogs dw iw ww cw).sink L) now
      ((l0.createLogs dw iw ww cw).logPrefix ++ Sprintf logMessage arguments)
    refine ⟨hl.1, ?_⟩
    intro hp hm
    rw [hl.2]
    have hh := StdLogger.formatHeader_no_newline _ L now ht.1 ht.2
    have hpre : (l0.createLogs dw iw ww cw).logPrefix = l0.logPrefix := rfl
    simp only [List.mem_append, String.data_append, not_or, hpre]
    exact ⟨hh, hp, hm⟩

/-- Witness for C15 as amended: the warning of the specification's scenario. -/
theorem emitted_bytes_single_line_witness :
    (CreateLogger.sendLog sampleTime "WARNING" "disk at %d%%" [.int 91] World.empty).2.writes
      = World.empty.writes
        ++ [(Writer.stdout, "WARNING: 2024/03/09 07:05:42 disk at 91%\n")]
    ∧ ("WARNING: 2024/03/09 07:05:42 disk at 91%\n" : String).data.getLast? = some '\n' :=
  ⟨by decide,
   (emitted_bytes_single_line { Logger.zero with logLevel := "DEBUG" }
     .stdout .stdout .stdout .stderr sampleTime "WARNING" "disk at %d%%" [.int 91]
     World.empty .stdout "WARNING: 2024/03/09 07:05:42 disk at 91%\n" (by decide)).1⟩

/-- Counterexample to C15 as stated: a testing logger logging the message
`first`, newline, `second` at DEBUG level makes one write call whose bytes hold
a newline before the last one; and the line `SetLogLevel` writes for the name
`debug` in testing mode ends in two newlines. -/
theorem emitted_bytes_not_single_line :
    ((Logger.zero.initTest (.buffer 0) (.buffer 1) (.buffer 2) (.buffer 3)).Debugf
        sampleTime "first\nsecond" [] World.empty).2.writes
      = [(Writer.buffer 0, "DEBUG: 2024/03/09 07:05:42 first\nsecond\n")]
    ∧ '\n' ∈ ("DEBUG: 2024/03/09 07:05:42 first\nsecond\n" : String).data.dropLast
    ∧ ((Logger.zero.initTest (.buffer 0) (.buffer 1) (.buffer 2) (.buffer 3)).SetLogLevel
        sampleTime "debug" World.empty).2.writes
      = [(Writer.buffer 3, "CRITICAL: 2024/03/09 07:05:42 debug is not a valid log level\n\n")]
    ∧ '\n' ∈ ("CRITICAL: 2024/03/09 07:05:42 debug is not a valid log level\n\n"
        : String).data.dropLast := by
  refine ⟨by decide, by decide, by decide, by decide⟩

/-! ## Reading the log file back -/

/-- In testing mode the logging method of level L, under the threshold T,
hands the prefixed message to the sink of L when T ≤ L and does nothing
otherwise; the logger is the same afterwards. -/
theorem logf_testing_eq (l : Logger) (T L : Level) (now : Time) (logMessage : String)
    (arguments : List Arg) (w : World) (ht : l.testing = true) (hT : l.logLevel = T.name) :
    l.logf L now logMessage arguments w
      = (l, if T.rank ≤ L.rank
          then (l.sink L).Println now (l.logPrefix ++ Sprintf logMessage arguments) w
          else w) := by
  cases T <;> cases L <;>
    simp [Logger.logf, Logger.Debugf, Logger.Infof, Logger.Warningf, Logger.Criticalf,
      Logger.sendLog, Logger.sink, hT, ht, Level.name, Level.rank]

/-- `Println` on a sink that pairs the open file with a console stream
appends the line to the file. -/
theorem StdLogger.Println_file_fs (s : StdLogger) (now : Time) (message path c : String)
    (console : Writer) (w : World) (hout : s.out = .multi (.file path) console)
    (hcon : console = .stdout ∨ console = .stderr) (hf : w.fs path = .regular c) :
    (s.Println now message w).fs path = .regular (c ++ s.line now message) := by
  have key : ∀ w1 : World, w1.fs path = .regular c →
      (World.write (.multi (.file path) console) (s.line now message) w1).1.fs path
        = .regular (c ++ s.line now message) := by
    intro w1 h1
    rw [World.write_multi_file path _ c console _ h1]
    rcases hcon with h | h <;> simp [h, World.write]
  unfold StdLogger.Println
  rw [hout]
  exact key _ hf

theorem concatStrings_append (xs ys : List String) :
    concatStrings (xs ++ ys) = concatStrings xs ++ concatStrings ys := by
  induction xs with
  | nil => simp [concatStrings]
  | cons x rest ih => simp [concatStrings, ih, String.append_assoc]

/-- A run of logging calls on a testing logger whose sinks pair the open file
with a console stream: the logger stays as it is, the process goes on, and the
file gains the lines of the calls that pass the filter, in call order. -/
theorem run_calls_file (l : Logger) (T : Level) (path : String) (calls : List Call)
    (w : World) (c : String) (ht : l.testing = true) (hT : l.logLevel = T.name)
    (hout : ∀ L : Level, ∃ console, (l.sink L).out = .multi (.file path) console
      ∧ (console = .stdout ∨ console = .stderr))
    (hrun : w.exited = none) (hf : w.fs path = .regular c) :
    (run (calls.map Call.op) (l, w)).1 = l
    ∧ (run (calls.map Call.op) (l, w)).2.exited = none
    ∧ (run (calls.map Call.op) (l, w)).2.fs path
      = .regular (c ++ concatStrings ((calls.filter (Call.passes T)).map (Call.line l))) := by
  induction calls generalizing w c with
  | nil => simp [run, concatStrings, hrun, hf]
  | cons x rest ih =>
    simp only [List.map_cons, Call.op, run, hrun, Option.isSome_none, Bool.false_eq_true,
      if_false, Op.apply]
    rw [logf_testing_eq l T x.level x.now x.logMessage x.arguments w ht hT]
    by_cases hp : T.rank ≤ x.level.rank
    · obtain ⟨console, ho, hc⟩ := hout x.level
      have hf2 := StdLogger.Println_file_fs (l.sink x.level) x.now
        (l.logPrefix ++ Sprintf x.logMessage x.arguments) path c console w ho hc hf
      have hr2 : ((l.sink x.level).Println x.now
          (l.logPrefix ++ Sprintf x.logMessage x.arguments) w).exited = none := by
        rw [StdLogger.Println_exited, hrun]
      have := ih _ _ hr2 hf2
      simp only [hp, if_true]
      have hpass : Call.passes T x = true := by simp [Call.passes, hp]
      simp only [List.filter_cons, hpass, if_true, List.map_cons, concatStrings]
      rw [← String.append_assoc]
      exact this
    · have := ih w c hrun hf
      simp only [hp, if_false]
      have hpass : Call.passes T x = false := by simp [Call.passes, hp]
      simp only [List.filter_cons, hpass]
      exact this

/-- What `removeDateAndTime` makes of a level tag, a date field, a time field
and any rest: the tag and the rest. -/
theorem removeDateAndTime_fields (L : Level) (now : Time) (rest : List Char) :
    removeDateAndTime (String.mk ((L.name.data ++ [':']) ++ ' ' ::
        ((dateField now).data ++ ' ' :: ((timeField now).data ++ ' ' :: rest))))
      = some (String.mk ((L.name.data ++ [':']) ++ ' ' :: rest)) := by
  have hn : ' ' ∉ L.name.data ++ [':'] := by
    simp only [List.mem_append, List.mem_singleton, not_or]
    exact ⟨L.name_no_space, by decide⟩
  unfold removeDateAndTime
  simp only []
  rw [splitChars_append_sep _ _ _ hn,
    splitChars_append_sep _ _ _ (dateField_no_space now),
    splitChars_append_sep _ _ _ (timeField_no_space now)]
  have hlen : 3 ≤ ((L.name.data ++ [':']) :: (dateField now).data :: (timeField now).data ::
      splitChars ' ' rest).length := by
    simp
  simp only [hlen, if_true, List.take, List.drop, List.singleton_append]
  rw [joinChars_cons _ _ _ (splitChars_ne_nil _ _), joinChars_splitChars]

theorem StdLogger.formatHeader_data (s : StdLogger) (L : Level) (now : Time)
    (htag : s.tag = L.name ++ ": ") (hflag : s.flag = Ldate ||| Ltime) :
    (s.formatHeader now).data
      = (L.name.data ++ [':']) ++ ' ' :: ((dateField now).data ++ ' ' ::
          ((timeField now).data ++ [' '])) := by
  have h1 : (Ldate ||| Ltime) &&& Ldate ≠ 0 := by decide
  have h2 : (Ldate ||| Ltime) &&& Ltime ≠ 0 := by decide
  have e1 : (": " : String).data = [':', ' '] := rfl
  have e2 : (" " : String).data = [' '] := rfl
  simp only [StdLogger.formatHeader, htag, hflag, h1, h2, ne_eq,
    not_false_eq_true, if_true, String.data_append, e1, e2, List.append_assoc,
    List.cons_append, List.nil_append, List.singleton_append]

/-- A line of a sink built by `createLogs`, taken without its newline, comes
out of `removeDateAndTime` as the level tag and the message. -/
theorem removeDateAndTime_body (s : StdLogger) (L : Level) (now : Time) (message : String)
    (htag : s.tag = L.name ++ ": ") (hflag : s.flag = Ldate ||| Ltime) :
    removeDateAndTime (s.formatHeader now ++ message) = some (L.name ++ ": " ++ message) := by
  have hd : s.formatHeader now ++ message
      = String.mk ((L.name.data ++ [':']) ++ ' ' ::
          ((dateField now).data ++ ' ' :: ((timeField now).data ++ ' ' :: message.data))) := by
    apply String.ext
    simp only [String.data_append, s.formatHeader_data L now htag hflag, List.append_assoc,
      List.cons_append, List.nil_append, List.singleton_append]
  rw [hd, removeDateAndTime_fields]
  congr 1
  apply String.ext
  have e1 : (": " : String).data = [':', ' '] := rfl
  simp [String.data_append, e1]

/-- Splitting a file of newline-terminated lines at newlines and dropping the
empty pieces gives the lines back, when no line is empty or holds a newline. -/
theorem fileLines_concat (bodies : List String)
    (h : ∀ b ∈ bodies, '\n' ∉ b.data ∧ b.data ≠ []) :
    ((splitChars '\n' (concatStrings (bodies.map (fun b => b ++ "\n"))).data).filter
        (fun i => decide (i ≠ []))).map String.mk = bodies := by
  induction bodies with
  | nil => simp [concatStrings, splitChars]
  | cons b rest ih =>
    have hb := h b (List.mem_cons_self _ _)
    have hrest := ih (fun x hx => h x (List.mem_cons_of_mem _ hx))
    have e : ("\n" : String).data = ['\n'] := rfl
    have hd : (concatStrings ((b :: rest).map (fun b => b ++ "\n"))).data
        = b.data ++ '\n' :: (concatStrings (rest.map (fun b => b ++ "\n"))).data := by
      simp [concatStrings, String.data_append, e]
    rw [hd, splitChars_append_sep _ _ _ hb.1]
    simp only [List.filter_cons, hb.2, ne_eq, not_false_eq_true, decide_True, if_true,
      List.map_cons, hrest]

theorem SetLogFile_of_open (l : Logger) (now : Time) (path : String) (w : World)
    (hopen : (OpenFile path w).1 = .ok (.file path)) :
    l.SetLogFile now path w
      = (Logger.createLogs { l with logFile := path }
          (.multi (.file path) .stdout) (.multi (.file path) .stdout)
          (.multi (.file path) .stdout) (.multi (.file path) .stderr),
         (OpenFile path w).2) := by
  unfold Logger.SetLogFile
  generalize ho : OpenFile path w = o at hopen
  obtain ⟨res, w1⟩ := o
  simp only at hopen
  subst hopen
  rfl

/-- Opening a path that is absent or holds a regular file succeeds; the file
then holds what it held before, nothing if it was absent. -/
theorem OpenFile_content (path c0 : String) (w : World)
    (h0 : (w.fs path = .absent ∧ c0 = "") ∨ w.fs path = .regular c0) :
    (OpenFile path w).1 = .ok (.file path)
    ∧ (OpenFile path w).2.fs path = .regular c0
    ∧ (OpenFile path w).2.exited = w.exited := by
  unfold OpenFile
  rcases h0 with ⟨h, hc⟩ | h
  · simp [h, hc]
  · simp [h]

theorem Level.name_valid (T : Level) :
    T.name = "DEBUG" ∨ T.name = "INFO" ∨ T.name = "WARNING" ∨ T.name = "CRITICAL" := by
  cases T <;> simp [Level.name]

/-- The state in which `fileOutputRun` makes its logging calls. -/
theorem fileOutputRun_eq (l0 : Logger) (now0 now1 : Time) (path : String) (T : Level)
    (calls : List Call) (w0 : World) (hopen : (OpenFile path w0).1 = .ok (.file path)) :
    fileOutputRun l0 now0 now1 path T calls w0
      = run (calls.map Call.op)
          ({ Logger.createLogs { l0 with logFile := path }
              (.multi (.file path) .stdout) (.multi (.file path) .stdout)
              (.multi (.file path) .stdout) (.multi (.file path) .stderr)
             with logLevel := T.name },
           (OpenFile path w0).2) := by
  unfold fileOutputRun
  simp only [SetLogFile_of_open l0 now0 path w0 hopen, Logger.SetLogLevel, T.name_valid,
    if_true]

/-- C12, as the code has it: a testing logger gets a log file that is absent
or holds the content `c0`, then a threshold T, then any finite sequence of
`Debugf`, `Infof`, `Warningf` and `Criticalf` calls.  Afterwards the file holds
`c0` followed by the lines of the calls that pass the filter, in call order,
each ending with a newline; there are as many as calls that pass.  When the
file was absent and neither the prefix nor a formatted message of a passing
call holds a newline, reading the file back the way the test does gives as
many lines as calls that pass and, line by line, the level tag, the prefix and
the formatted message of those calls. -/
theorem file_holds_emitted_lines (l0 : Logger) (now0 now1 : Time) (path : String)
    (T : Level) (calls : List Call) (w0 : World) (c0 : String)
    (ht : l0.testing = true) (hrun : w0.exited = none)
    (h0 : (w0.fs path = .absent ∧ c0 = "") ∨ w0.fs path = .regular c0) :
    (fileOutputRun l0 now0 now1 path T calls w0).2.fs path
      = .regular (c0 ++ concatStrings ((calls.filter (Call.passes T)).map
          (Call.line (fileOutputRun l0 now0 now1 path T calls w0).1)))
    ∧ ((calls.filter (Call.passes T)).map
        (Call.line (fileOutputRun l0 now0 now1 path T calls w0).1)).length
      = (calls.filter (Call.passes T)).length
    ∧ (∀ c ∈ calls.filter (Call.passes T),
        (Call.line (fileOutputRun l0 now0 now1 path T calls w0).1 c).data.getLast?
          = some '\n')
    ∧ (fileOutputRun l0 now0 now1 path T calls w0).2.exited = none
    ∧ (c0 = "" → '\n' ∉ l0.logPrefix.data →
        (∀ c ∈ calls.filter (Call.passes T),
          '\n' ∉ (Sprintf c.logMessage c.arguments).data) →
        ∃ fileData : String,
          (fileOutputRun l0 now0 now1 path T calls w0).2.fs path = .regular fileData
          ∧ formattedLogLines fileData
            = (calls.filter (Call.passes T)).map (fun c =>
                some (c.level.name ++ ": " ++ (l0.logPrefix
                  ++ Sprintf c.logMessage c.arguments)))
          ∧ (formattedLogLines fileData).length = (calls.filter (Call.passes T)).length) := by
  obtain ⟨hopen, hf, hx⟩ := OpenFile_content path c0 w0 h0
  rw [fileOutputRun_eq l0 now0 now1 path T calls w0 hopen]
  generalize hl : ({ Logger.createLogs { l0 with logFile := path }
      (.multi (.file path) .stdout) (.multi (.file path) .stdout)
      (.multi (.file path) .stdout) (.multi (.file path) .stderr)
      with logLevel := T.name } : Logger) = l2
  have hout : ∀ L : Level, ∃ console, (l2.sink L).out = .multi (.file path) console
      ∧ (console = .stdout ∨ console = .stderr) := by
    intro L
    subst hl
    cases L
    · exact ⟨.stdout, rfl, Or.inl rfl⟩
    · exact ⟨.stdout, rfl, Or.inl rfl⟩
    · exact ⟨.stdout, rfl, Or.inl rfl⟩
    · exact ⟨.stderr, rfl, Or.inr rfl⟩
  have htag : ∀ L : Level, (l2.sink L).tag = L.name ++ ": "
      ∧ (l2.sink L).flag = Ldate ||| Ltime := by
    intro L
    subst hl
    cases L <;> exact ⟨rfl, rfl⟩
  have ht2 : l2.testing = true := by
    subst hl
    exact ht
  have hT2 : l2.logLevel = T.name := by
    subst hl
    rfl
  have hp2 : l2.logPrefix = l0.logPrefix := by
    subst hl
    rfl
  obtain ⟨hr1, hr2, hr3⟩ := run_calls_file l2 T path calls (OpenFile path w0).2 c0 ht2 hT2
    hout (by rw [hx, hrun]) hf
  rw [hr1]
  refine ⟨hr3, by simp, ?_, hr2, ?_⟩
  · intro c _
    exact (StdLogger.line_last _ _ _).1
  · intro hc0 hpre hmsg
    have hfile : (run (calls.map Call.op) (l2, (OpenFile path w0).2)).2.fs path
        = .regular (concatStrings ((calls.filter (Call.passes T)).map (Call.line l2))) := by
      rw [hr3, hc0]
      congr 1
    suffices hfmt : formattedLogLines
        (concatStrings ((calls.filter (Call.passes T)).map (Call.line l2)))
        = (calls.filter (Call.passes T)).map (fun c =>
            some (c.level.name ++ ": " ++ (l0.logPrefix
              ++ Sprintf c.logMessage c.arguments))) by
      exact ⟨_, hfile, hfmt, by rw [hfmt, List.length_map]⟩
    have hbody : (calls.filter (Call.passes T)).map (Call.line l2)
        = ((calls.filter (Call.passes T)).map (fun c =>
            (l2.sink c.level).formatHeader c.now
              ++ (l2.logPrefix ++ Sprintf c.logMessage c.arguments))).map
          (fun b => b ++ "\n") := by
      rw [List.map_map]
      rfl
    unfold formattedLogLines
    rw [hbody, fileLines_concat, List.map_map]
    · apply List.map_congr_left
      intro c _
      simp only [Function.comp_apply]
      rw [removeDateAndTime_body _ c.level c.now _ (htag c.level).1 (htag c.level).2, hp2]
    · intro b hb
      simp only [List.mem_map] at hb
      obtain ⟨c, hc, rfl⟩ := hb
      have hh := StdLogger.formatHeader_no_newline (l2.sink c.level) c.level c.now
        (htag c.level).1 (htag c.level).2
      constructor
      · simp only [String.data_append, List.mem_append, not_or, hp2]
        exact ⟨hh, hpre, hmsg c hc⟩
      · rw [String.data_append, (l2.sink c.level).formatHeader_data c.level c.now
          (htag c.level).1 (htag c.level).2]
        simp

/-- Witness for C12 as amended: the flow of the test at threshold INFO, the
four calls with the template and arguments of the test; the file holds the
three lines of INFO, WARNING and CRITICAL. -/
theorem file_holds_emitted_lines_witness :
    (Logger.zero.initTest (.buffer 0) (.buffer 0) (.buffer 0) (.buffer 0)).testing = true
    ∧ World.empty.exited = none
    ∧ (fileOutputRun (Logger.zero.initTest (.buffer 0) (.buffer 0) (.buffer 0) (.buffer 0))
        sampleTime sampleTime "./test_log.txt" Level.INFO
        [⟨sampleTime, .DEBUG, "This is a %s of the %s", [.str "test", .str "logging."]⟩,
         ⟨sampleTime, .INFO, "This is a %s of the %s", [.str "test", .str "logging."]⟩,
         ⟨sampleTime, .WARNING, "This is a %s of the %s", [.str "test", .str "logging."]⟩,
         ⟨sampleTime, .CRITICAL, "This is a %s of the %s", [.str "test", .str "logging."]⟩]
        World.empty).2.fs "./test_log.txt"
      = .regular ("INFO: 2024/03/09 07:05:42 This is a test of the logging.\n"
          ++ "WARNING: 2024/03/09 07:05:42 This is a test of the logging.\n"
          ++ "CRITICAL: 2024/03/09 07:05:42 This is a test of the logging.\n")
    ∧ formattedLogLines ("INFO: 2024/03/09 07:05:42 This is a test of the logging.\n"
          ++ "WARNING: 2024/03/09 07:05:42 This is a test of the logging.\n"
          ++ "CRITICAL: 2024/03/09 07:05:42 This is a test of the logging.\n")
      = [some "INFO: This is a test of the logging.",
         some "WARNING: This is a test of the logging.",
         some "CRITICAL: This is a test of the logging."] :=
  ⟨by decide, rfl,
   (file_holds_emitted_lines
      (Logger.zero.initTest (.buffer 0) (.buffer 0) (.buffer 0) (.buffer 0))
      sampleTime sampleTime "./test_log.txt" Level.INFO
      [⟨sampleTime, .DEBUG, "This is a %s of the %s", [.str "test", .str "logging."]⟩,
       ⟨sampleTime, .INFO, "This is a %s of the %s", [.str "test", .str "logging."]⟩,
       ⟨sampleTime, .WARNING, "This is a %s of the %s", [.str "test", .str "logging."]⟩,
       ⟨sampleTime, .CRITICAL, "This is a %s of the %s", [.str "test", .str "logging."]⟩]
      World.empty "" (by decide) rfl (Or.inl ⟨rfl, rfl⟩)).1,
   by decide⟩

/-- Counterexample to C12 as stated: with the file attached and threshold
DEBUG, the single call `Debugf` with the message `first`, newline, `second`
passes the filter, yet the file read back has two lines, and the second is not
a line `removeDateAndTime` can strip. -/
theorem file_lines_exceed_emitted_calls :
    ([(⟨sampleTime, .DEBUG, "first\nsecond", []⟩ : Call)].filter
        (Call.passes Level.DEBUG)).length = 1
    ∧ (fileOutputRun (Logger.zero.initTest (.buffer 0) (.buffer 0) (.buffer 0) (.buffer 0))
        sampleTime sampleTime "./test_log.txt" Level.DEBUG
        [⟨sampleTime, .DEBUG, "first\nsecond", []⟩] World.empty).2.fs "./test_log.txt"
      = .regular "DEBUG: 2024/03/09 07:05:42 first\nsecond\n"
    ∧ formattedLogLines "DEBUG: 2024/03/09 07:05:42 first\nsecond\n"
      = [some "DEBUG: first", none] := by
  refine ⟨by decide, by decide, by decide⟩

/-! ## Error-aware logging of the package-level API -/

theorem StdLogger.PrintlnAt_writes (s : StdLogger) (now : Time) (file : String) (line : Nat)
    (message : String) (w : World) :
    (s.PrintlnAt now file line message w).writes
      = w.writes ++ [(s.out, s.lineAt now file line message)] := by
  simp [StdLogger.PrintlnAt, World.write_writes]

/-- With an error present `DebugfError` makes two write calls on the debug sink
when the threshold is DEBUG, the first with the formatted message, the second
with the error text formatted as a template; otherwise it makes none. -/
theorem Pkg.DebugfError_writes (p : Pkg) (now now2 : Time) (errorText logMessage : String)
    (arguments : List Arg) (w : World) :
    (p.DebugfError now now2 (some errorText) logMessage arguments w).writes
      = if p.logLevel = "DEBUG" then
          w.writes ++ [(p.debug.out,
              p.debug.lineAt now "my_logger.go" 81 (Sprintf logMessage arguments)),
            (p.debug.out, p.debug.lineAt now2 "my_logger.go" 81 (Sprintf errorText []))]
        else w.writes := by
  unfold Pkg.DebugfError Pkg.Debugf
  split_ifs <;> simp [StdLogger.PrintlnAt_writes]

/-- The same for `InfofError`, under the thresholds DEBUG and INFO. -/
theorem Pkg.InfofError_writes (p : Pkg) (now now2 : Time) (errorText logMessage : String)
    (arguments : List Arg) (w : World) :
    (p.InfofError now now2 (some errorText) logMessage arguments w).writes
      = if p.logLevel = "DEBUG" ∨ p.logLevel = "INFO" then
          w.writes ++ [(p.info.out,
              p.info.lineAt now "my_logger.go" 103 (Sprintf logMessage arguments)),
            (p.info.out, p.info.lineAt now2 "my_logger.go" 103 (Sprintf errorText []))]
        else w.writes := by
  unfold Pkg.InfofError Pkg.Infof
  split_ifs <;> simp [StdLogger.PrintlnAt_writes]

/-- The same for `WarningfError`, under the thresholds DEBUG, INFO and
WARNING. -/
theorem Pkg.WarningfError_writes (p : Pkg) (now now2 : Time)
    (errorText logMessage : String) (arguments : List Arg) (w : World) :
    (p.WarningfError now now2 (some errorText) logMessage arguments w).writes
      = if p.logLevel = "DEBUG" ∨ p.logLevel = "INFO" ∨ p.logLevel = "WARNING" then
          w.writes ++ [(p.warning.out,
              p.warning.lineAt now "my_logger.go" 125 (Sprintf logMessage arguments)),
            (p.warning.out, p.warning.lineAt now2 "my_logger.go" 125 (Sprintf errorText []))]
        else w.writes := by
  unfold Pkg.WarningfError Pkg.Warningf
  split_ifs <;> simp [StdLogger.PrintlnAt_writes]

/-- C16: the code at the failing input.  The package as `init` leaves it
(threshold DEBUG) gets `InfofError` with the error text `expected %d bytes` and
the template `read %s` with argument `a.txt`.  Two lines are written at INFO
level; the first carries `read a.txt`, the second carries
`expected %!d(MISSING) bytes` and not the error text, because `InfofError`
passes the error text to `Infof` as its template. -/
theorem Pkg.InfofError_formats_error_text :
    (Pkg.init.InfofError sampleTime sampleTime (some "expected %d bytes") "read %s"
        [.str "a.txt"] World.empty).writes
      = [(Writer.stdout, "INFO: 2024/03/09 07:05:42 my_logger.go:103: read a.txt\n"),
         (Writer.stdout,
          "INFO: 2024/03/09 07:05:42 my_logger.go:103: expected %!d(MISSING) bytes\n")]
    ∧ ("INFO: 2024/03/09 07:05:42 my_logger.go:103: expected %!d(MISSING) bytes\n" : String)
      ≠ "INFO: 2024/03/09 07:05:42 my_logger.go:103: " ++ "expected %d bytes" ++ "\n"
    ∧ (Pkg.init.InfofError sampleTime sampleTime (some "expected %d bytes") "read %s"
        [.str "a.txt"] World.empty).stdout
      = "INFO: 2024/03/09 07:05:42 my_logger.go:103: read a.txt\n"
        ++ "INFO: 2024/03/09 07:05:42 my_logger.go:103: expected %!d(MISSING) bytes\n" := by
  refine ⟨by decide, by decide, by decide⟩

end MyLogging
